import Mathlib

/-!
Verification development for the transport-agent query answering and
proactive notification orchestrator.

This file shallowly embeds the core pipeline of the repository:

- agent/decision_engine.py  (DecisionEngine.ask, guardrails, fallback planner,
  tool executor for gps / weather / eta / none steps, fallback composer)
- tools/eta_calculator.py   (haversine_meters, calculate_eta_seconds)
- services/fleet_service.py (get_bus_status, get_route)
- agent/notification_agent.py (process_subscriptions, one subscription)
- agent/supervisor_agent.py (handle_user_query answer composition)

Modelling conventions:
- Python dynamic values are the inductive type PyVal (JSON-like); Python
  truthiness, the `or` operator, `dict.get`, `int()` and `float()` are
  embedded as pyTruthy, pyOr, dictFind/pyGetD, pyToInt, pyToFloat.
- Python floats are modelled as rationals; the IEEE trigonometry of the
  haversine distance is not shallowly embeddable, so inside the executor the
  distance computed by DecisionEngine haversine_km is an environment oracle
  (Env.hav), which may also raise like the source does for out-of-range
  inputs.  The pure real-number haversine of tools/eta_calculator.py is
  embedded separately over the reals for the totality/safety claim.
- External collaborators (redis, gps lookup, weather provider, embedding
  retrieval, generative planner/composer) are fields of Env; exceptions they
  may raise are modelled with Except Unit.
- Exception raising inside repository code (attribute errors on None,
  float()/int() conversion failures) is modelled with Except Unit at the
  places the source can raise; the text of exception messages is modelled by
  the opaque string "exception" since only its presence matters downstream.
-/

namespace Transport

/-- JSON-like dynamic values used to embed Python's loosely typed data. -/
inductive PyVal where
  | none : PyVal
  | bool : Bool → PyVal
  | int : ℤ → PyVal
  | float : ℚ → PyVal
  | str : String → PyVal
  | list : List PyVal → PyVal
  | dict : List (String × PyVal) → PyVal
deriving Repr, Inhabited

/-- Python truthiness of a value (bool(v)). -/
def pyTruthy : PyVal → Bool
  | .none => false
  | .bool b => b
  | .int n => n != 0
  | .float q => q != 0
  | .str s => s ≠ ""
  | .list xs => !xs.isEmpty
  | .dict kvs => !kvs.isEmpty

/-- Python `a or b`. -/
def pyOr (a b : PyVal) : PyVal := if pyTruthy a then a else b

/-- Numeric view of a value (Python treats bools as ints in arithmetic). -/
def pyNum? : PyVal → Option ℚ
  | .bool b => some (if b then 1 else 0)
  | .int n => some (n : ℚ)
  | .float q => some q
  | _ => Option.none

mutual

/-- Python `==` restricted to the shapes compared in this code base:
numbers compare across int/float/bool, strings compare as strings, None
equals only None; list and dict comparison is modelled structurally. -/
def pyEq : PyVal → PyVal → Bool
  | .none, .none => true
  | .str a, .str b => a == b
  | .list xs, .list ys => pyEqList xs ys
  | .dict xs, .dict ys => pyEqDict xs ys
  | a, b =>
      match pyNum? a, pyNum? b with
      | some x, some y => x == y
      | _, _ => false
termination_by structural a => a

/-- Elementwise equality of Python lists. -/
def pyEqList : List PyVal → List PyVal → Bool
  | [], [] => true
  | x :: xs, y :: ys => pyEq x y && pyEqList xs ys
  | _, _ => false
termination_by structural l => l

/-- Entrywise equality of Python dicts (structural approximation). -/
def pyEqDict : List (String × PyVal) → List (String × PyVal) → Bool
  | [], [] => true
  | (k, v) :: xs, (k', v') :: ys => k == k' && pyEq v v' && pyEqDict xs ys
  | _, _ => false
termination_by structural l => l

end

/-- First binding of a key in a dict body (Python dicts have unique keys, so
an association list with first-match lookup is faithful). -/
def dictFind (kvs : List (String × PyVal)) (k : String) : Option PyVal :=
  (kvs.find? (fun kv => kv.1 == k)).map (·.2)

/-- Python d.get(k) (missing key yields None). -/
def pyGet (kvs : List (String × PyVal)) (k : String) : PyVal :=
  (dictFind kvs k).getD .none

/-- Python d.get(k, default). -/
def pyGetD (kvs : List (String × PyVal)) (k : String) (d : PyVal) : PyVal :=
  (dictFind kvs k).getD d

/-- Python `k in d` for dicts. -/
def dictHasKey (kvs : List (String × PyVal)) (k : String) : Bool :=
  (kvs.find? (fun kv => kv.1 == k)).isSome

/-- Truncation of a rational toward zero, the behaviour of Python int() on
a float. -/
def ratTrunc (q : ℚ) : ℤ := Int.tdiv q.num (q.den : ℤ)

/-- Characters Python str.strip and str.split treat as whitespace. -/
def isPySpace (c : Char) : Bool :=
  c == ' ' || c == '\t' || c == '\n' || c == '\r' ||
    c == Char.ofNat 11 || c == Char.ofNat 12

/-- Python str.strip(). -/
def stripChars (cs : List Char) : List Char :=
  ((cs.dropWhile isPySpace).reverse.dropWhile isPySpace).reverse

/-- Python str.strip() on strings. -/
def pyStrip (s : String) : String := ⟨stripChars s.data⟩

/-- Python str.lower(), for the ASCII text this program handles. -/
def pyLower (s : String) : String := ⟨s.data.map Char.toLower⟩

/-- Python str.upper(), for the ASCII text this program handles. -/
def pyUpper (s : String) : String := ⟨s.data.map Char.toUpper⟩

/-- Whether the first list is a prefix of the second. -/
def charsPrefix : List Char → List Char → Bool
  | [], _ => true
  | _ :: _, [] => false
  | x :: xs, y :: ys => x == y && charsPrefix xs ys

/-- Whether the first list occurs contiguously inside the second. -/
def charsInfix : List Char → List Char → Bool
  | needle, [] => needle.isEmpty
  | needle, c :: rest => charsPrefix needle (c :: rest) || charsInfix needle rest

/-- Python `needle in hay` for strings. -/
def containsSub (hay needle : String) : Bool :=
  charsInfix needle.data hay.data

/-- Value of a digit run, most significant first. -/
def digitsValAux (acc : ℕ) : List Char → ℕ
  | [] => acc
  | c :: cs => digitsValAux (acc * 10 + (c.toNat - 48)) cs

/-- Value of a digit run. -/
def digitsVal (cs : List Char) : ℕ := digitsValAux 0 cs

/-- Python int(str): strip, optional sign, nonempty digit run. -/
def parseIntChars (cs : List Char) : Except Unit ℤ :=
  let core : List Char → Except Unit ℕ := fun ds =>
    if ds ≠ [] ∧ ds.all Char.isDigit then .ok (digitsVal ds)
    else .error ()
  match stripChars cs with
  | '-' :: rest => (core rest).map (fun n => -(n : ℤ))
  | '+' :: rest => (core rest).map (fun n => (n : ℤ))
  | rest => (core rest).map (fun n => (n : ℤ))

/-- Python float(str), for the plain decimal literals this program meets:
strip, optional sign, then digits, digits.digits, digits. or .digits.
Exponents and the inf/nan spellings are out of the model's scope. -/
def parseFloatChars (cs : List Char) : Except Unit ℚ :=
  let digits := fun (ds : List Char) => digitsVal ds
  let core : List Char → Except Unit ℚ := fun ds =>
    let ip := ds.takeWhile Char.isDigit
    let rest := ds.dropWhile Char.isDigit
    match rest with
    | [] => if ip ≠ [] then .ok ((digits ip : ℤ) : ℚ) else .error ()
    | '.' :: fp =>
        if fp.all Char.isDigit ∧ (ip ≠ [] ∨ fp ≠ []) then
          .ok (((digits ip : ℤ) : ℚ) + (digits fp : ℚ) / (10 ^ fp.length : ℚ))
        else .error ()
    | _ => .error ()
  match stripChars cs with
  | '-' :: rest => (core rest).map (fun q => -q)
  | '+' :: rest => core rest
  | rest => core rest

/-- Python int(v): ints pass through, bools become 0/1, floats truncate
toward zero, strings parse as integer literals, everything else raises. -/
def pyToInt : PyVal → Except Unit ℤ
  | .bool b => .ok (if b then 1 else 0)
  | .int n => .ok n
  | .float q => .ok (ratTrunc q)
  | .str s => parseIntChars s.data
  | _ => .error ()

/-- Python float(v). -/
def pyToFloat : PyVal → Except Unit ℚ
  | .bool b => .ok (if b then 1 else 0)
  | .int n => .ok (n : ℚ)
  | .float q => .ok q
  | .str s => parseFloatChars s.data
  | _ => .error ()

/-- Rendering of a value inside an f-string (str(v)); the decimal rendering
of floats and the rendering of containers are approximated, they only feed
cache keys and degenerate message corners. -/
def pyStr : PyVal → String
  | .none => "None"
  | .bool true => "True"
  | .bool false => "False"
  | .int n => toString n
  | .float q => toString q
  | .str s => s
  | .list _ => "[...]"
  | .dict _ => "(dict)"

/-- Word character of the regex \b boundary, for the ASCII text in scope. -/
def isWordChar (c : Char) : Bool := c.isAlphanum || c == '_'

/-- Scanner for the regex \b[Xx]\d+\b (re.finditer order, non-overlapping):
at each position, a match needs the given letter preceded by start-of-string
or a non-word character, one or more digits, and a following non-word
character or end of string.  The fuel starts at the list length, which the
scanner never exhausts since every step consumes at least one character. -/
def idMatchesAux (cl cu : Char) : ℕ → Option Char → List Char → List String
  | 0, _, _ => []
  | _ + 1, _, [] => []
  | fuel + 1, prev, c :: cs =>
    if (c == cl || c == cu) &&
        (match prev with | Option.none => true | some p => !isWordChar p) then
      let ds := cs.takeWhile Char.isDigit
      let rest := cs.dropWhile Char.isDigit
      if !ds.isEmpty &&
          (match rest with | [] => true | r :: _ => !isWordChar r) then
        String.mk (c :: ds) :: idMatchesAux cl cu fuel (some c) rest
      else idMatchesAux cl cu fuel (some c) cs
    else idMatchesAux cl cu fuel (some c) cs

/-- All matches of \b[Xx]\d+\b in a string, in order. -/
def idMatches (cl cu : Char) (s : String) : List String :=
  idMatchesAux cl cu s.data.length Option.none s.data

/-- re.search for \b[Bb]\d+\b: DecisionEngine extract_bus_id. -/
def extract_bus_id (text : String) : Option String :=
  (idMatches 'b' 'B' text).head?

/-- One attempt of the regex alternation [-+]?\d*\.\d+|\d+ at the head of
the list: first the signed decimal alternative (greedy digits, a dot, at
least one fractional digit), then the bare digit run.  Returns the matched
characters and the remainder. -/
def tryFloatAt (l : List Char) : Option (List Char × List Char) :=
  let attempt1 : List Char → List Char → Option (List Char × List Char) :=
    fun sgn l1 =>
      let d1 := l1.takeWhile Char.isDigit
      match l1.dropWhile Char.isDigit with
      | '.' :: l3 =>
          let d2 := l3.takeWhile Char.isDigit
          if d2.isEmpty then Option.none
          else some (sgn ++ d1 ++ '.' :: d2, l3.dropWhile Char.isDigit)
      | _ => Option.none
  let alt2 :=
    let ds := l.takeWhile Char.isDigit
    if ds.isEmpty then Option.none else some (ds, l.dropWhile Char.isDigit)
  match l with
  | [] => Option.none
  | c :: rest =>
      let signed := if c == '-' || c == '+' then some [c] else Option.none
      match signed with
      | some sgn =>
          match attempt1 sgn rest with
          | some r => some r
          | Option.none => alt2
      | Option.none =>
          match attempt1 [] l with
          | some r => some r
          | Option.none => alt2

/-- re.findall for [-+]?\d*\.\d+|\d+ (fuel is the list length; every step
consumes at least one character, so it never runs out). -/
def findFloatAux : ℕ → List Char → List String
  | 0, _ => []
  | _ + 1, [] => []
  | fuel + 1, c :: cs =>
    match tryFloatAt (c :: cs) with
    | some (t, r) => String.mk t :: findFloatAux fuel r
    | Option.none => findFloatAux fuel cs

/-- All number-like tokens of a string, the third stop-coordinate lookup
path of the eta step. -/
def findFloatTokens (s : String) : List String :=
  findFloatAux s.data.length s.data

/-- Lexicographic comparison of strings by code point (Python str <=). -/
def charsLe : List Char → List Char → Bool
  | [], _ => true
  | _ :: _, [] => false
  | x :: xs, y :: ys =>
      if x.toNat < y.toNat then true
      else if y.toNat < x.toNat then false
      else charsLe xs ys

/-- Python string comparison. -/
def strLe (a b : String) : Bool := charsLe a.data b.data

/-- Insertion into a sorted list of strings. -/
def insertSorted (x : String) : List String → List String
  | [] => [x]
  | y :: ys => if strLe x y then x :: y :: ys else y :: insertSorted x ys

/-- Insertion sort, embedding Python sorted() on deduplicated strings. -/
def sortStrings : List String → List String
  | [] => []
  | x :: xs => insertSorted x (sortStrings xs)

/-- sorted({m.group(0).upper() for m in re.finditer(pat, text)}) of
DecisionEngine extract_entities, for one identifier letter. -/
def entityMentions (cl cu : Char) (text : String) : List String :=
  sortStrings (((idMatches cl cu text).map pyUpper).dedup)

/-- tools/eta_calculator.calculate_eta_seconds as invoked by the eta step
(traffic_multiplier left at its default 1.0), with the haversine distance
in kilometres already resolved (the calculator recomputes the same formula
in metres, so dist_m = 1000 * dist_km): the speed divisor is floored at
0.1 m/s and the seconds truncate toward zero like Python int(). -/
def calculate_eta_seconds_km (distKm speed_kmph : ℚ) : ℤ :=
  ratTrunc ((1000 * distKm) / max (speed_kmph * 1000 / 3600) (1 / 10))

/-- DecisionEngine.ask lines 480-485: the sub-100-metre imminent-arrival
cutoff returning 120 seconds, otherwise the calculator's value. -/
def etaStepSeconds (distKm speed_kmph : ℚ) : ℤ :=
  if distKm < 1 / 10 then 120 else calculate_eta_seconds_km distKm speed_kmph

/-- DecisionEngine.ask line 496: the weather delay is added to eta_sec
after the branch, in both the imminent and the computed case. -/
def etaStepWithDelay (distKm speed_kmph : ℚ) (delay : ℤ) : ℤ :=
  etaStepSeconds distKm speed_kmph + delay

/-- tools/eta_calculator.haversine_meters over the reals.  Python raises
ValueError from math.sqrt when a < 0 and from math.asin when the argument
exceeds 1; both are modelled as Except errors. -/
noncomputable def haversine_meters (lat1 lon1 lat2 lon2 : ℝ) :
    Except Unit ℝ :=
  let rad : ℝ → ℝ := fun x => x * Real.pi / 180
  let phi1 := rad lat1
  let phi2 := rad lat2
  let dphi := rad (lat2 - lat1)
  let dlambda := rad (lon2 - lon1)
  let a := Real.sin (dphi / 2) ^ 2 +
    Real.cos phi1 * Real.cos phi2 * Real.sin (dlambda / 2) ^ 2
  if a < 0 then .error ()
  else if 1 < Real.sqrt a then .error ()
  else .ok (2 * 6371000 * Real.arcsin (Real.sqrt a))

/-- Python int() truncation on a real. -/
noncomputable def pyTruncR (x : ℝ) : ℤ := if 0 ≤ x then ⌊x⌋ else -⌊-x⌋

/-- tools/eta_calculator.calculate_eta_seconds over the reals: the body's
try block returns the truncated distance/speed seconds, and any raise from
the haversine yields the 9999 sentinel. -/
noncomputable def calculate_eta_seconds
    (lat1 lon1 lat2 lon2 speed_kmph traffic_multiplier : ℝ) : ℤ :=
  match haversine_meters lat1 lon1 lat2 lon2 with
  | .error _ => 9999
  | .ok dist_m =>
      pyTruncR (dist_m / max (speed_kmph * 1000 / 3600) (1 / 10) *
        traffic_multiplier)

/-- Boolean rational comparison. -/
def ratLtB (a b : ℚ) : Bool := decide (a < b)

/-- None test (Python `is None`). -/
def isNoneV : PyVal → Bool
  | .none => true
  | _ => false

/-- Guardrail answer for a blank query, and the composer's no-data answer. -/
def noInfoMessage : String := "No information available."

/-- Guardrail 2 abstain answer of DecisionEngine.ask. -/
def oodMessage : String :=
  "I am a transport assistant and only answer questions about " ++
    "buses, routes and stops. No information is available for this question."

/-- Guardrail 4 abstain answer of DecisionEngine.ask. -/
def relevanceMessage : String :=
  "I could not find reliable information for this question in my current data."

/-- Top-level exception answer of DecisionEngine.ask. -/
def crashMessage : String :=
  "Sorry, something went wrong when answering your question."

/-- Guardrail 3 abstain answer for an unknown bus id. -/
def busMissingMessage (b : String) : String :=
  "No information available: I could not find any bus with ID " ++ b ++
    " in the current fleet data."

/-- Guardrail 3 abstain answer for an unknown route id. -/
def routeMissingMessage (r : String) : String :=
  "No information available: I could not find any route with ID " ++ r ++
    " in the current fleet data."

/-- Keyword list of DecisionEngine is_transport_query. -/
def transportKeywords : List String :=
  ["bus", "buses", "route", "stop", "station", "eta", "when", "arrive",
    "reach", "delay", "traffic", "driver", "location"]

/-- DecisionEngine is_transport_query: a keyword substring of the lowered
query, or a word-bounded B/R/S identifier anywhere in the query. -/
def is_transport_query (query : String) : Bool :=
  let q := pyLower query
  transportKeywords.any (fun k => containsSub q k) ||
    (!(idMatches 'b' 'B' query).isEmpty ||
      (!(idMatches 'r' 'R' query).isEmpty ||
        !(idMatches 's' 'S' query).isEmpty))

/-- DecisionEngine validate_referenced_entities: the first unknown bus id in
sorted order aborts with its message, then the first unknown route id.  The
source wraps this in a catch-all returning None; the embedding is total, so
that branch is unreachable here. -/
def validate_referenced_entities (buses routes : List (String × PyVal))
    (query : String) : Option String :=
  match (entityMentions 'b' 'B' query).find? (fun b => !dictHasKey buses b) with
  | some b => some (busMissingMessage b)
  | Option.none =>
      match (entityMentions 'r' 'R' query).find?
          (fun r => !dictHasKey routes r) with
      | some r => some (routeMissingMessage r)
      | Option.none => Option.none

/-- The bus id regex applied to the raw query, as a value (None if absent). -/
def busIdFromQuery (query : String) : PyVal :=
  match extract_bus_id query with
  | some s => .str s
  | Option.none => .none

/-- Plan step literals of DecisionEngine fallback_plan. -/
def weatherStepEmpty : PyVal :=
  .dict [("tool", .str "weather"), ("params", .dict [])]

/-- The eta step appended by the first fallback rule. -/
def etaStepPlan (busId : PyVal) : PyVal :=
  .dict [("tool", .str "eta"),
    ("params", .dict [("bus_id", busId), ("stop_id", .str "S1")])]

/-- The gps step of the fallback planner. -/
def gpsStepPlan (busId : PyVal) : PyVal :=
  .dict [("tool", .str "gps"), ("params", .dict [("bus_id", busId)])]

/-- The weather step scoped to a route. -/
def weatherStepRoute (routeId : String) : PyVal :=
  .dict [("tool", .str "weather"),
    ("params", .dict [("route_id", .str routeId)])]

/-- The no-op step appended when no rule fires. -/
def noneStepPlan : PyVal :=
  .dict [("tool", .str "none"), ("params", .dict [])]

/-- Trigger words of the weather+eta fallback rule. -/
def etaTriggerWords : List String :=
  ["when", "arrive", "eta", "reach", "late", "delay"]

/-- Trigger words of the explicit-weather fallback rule. -/
def weatherTriggerWords : List String :=
  ["weather", "rain", "sunny", "haze", "temperature"]

/-- The steps appended by the three independent keyword rules of
DecisionEngine fallback_plan, in their firing order. -/
def fallback_plan_rules (query : String) : List PyVal :=
  let q := pyLower query
  let busMatch := (idMatches 'b' 'B' query).head?
  let busId := busIdFromQuery query
  let routeId : Option String := ((idMatches 'r' 'R' query).head?).map pyUpper
  let p1 :=
    if etaTriggerWords.any (fun k => containsSub q k) then
      [weatherStepEmpty, etaStepPlan busId]
    else []
  let p2 :=
    if weatherTriggerWords.any (fun k => containsSub q k) then
      if pyTruthy busId then [gpsStepPlan busId, weatherStepEmpty]
      else
        match routeId with
        | some r => [weatherStepRoute r]
        | Option.none => [weatherStepEmpty]
    else []
  let p3 :=
    if containsSub q "where" || containsSub q "location" ||
        containsSub q "status" || busMatch.isSome then
      [gpsStepPlan busId]
    else []
  p1 ++ p2 ++ p3

/-- DecisionEngine fallback_plan: the three independent keyword rules fire
in order on the lowered query, appending their steps; an empty plan becomes
a single none step. -/
def fallback_plan (query : String) : List PyVal :=
  let plan := fallback_plan_rules query
  if plan.isEmpty then [noneStepPlan] else plan

/-- Python dict .get keyed by a dynamic value against a string-keyed store
(fleet_service.buses / .routes and routes_raw are JSON objects). -/
def fleetLookup (m : List (String × PyVal)) (k : PyVal) : PyVal :=
  ((m.find? (fun kv => pyEq (.str kv.1) k)).map (·.2)).getD .none

/-- fleet_service.get_bus_status: None for a falsy registry entry, else the
assembled status dict; a truthy non-dict registry value raises on .get. -/
def get_bus_status (buses : List (String × PyVal)) (busId : PyVal) :
    Except Unit PyVal :=
  let bus := fleetLookup buses busId
  if !pyTruthy bus then .ok .none
  else
    match bus with
    | .dict kvs =>
        .ok (.dict [("bus_id", busId),
          ("status", pyGetD kvs "status" (.str "unknown")),
          ("status_message",
            pyGetD kvs "status_message" (.str "No status available")),
          ("lat", pyGet kvs "lat"),
          ("lon", pyGet kvs "lon"),
          ("route_id", pyGet kvs "route_id"),
          ("speed_kmph", pyGetD kvs "speed_kmph" (.float 20))])
    | _ => .error ()

/-- fleet_service.get_route. -/
def get_route (routes : List (String × PyVal)) (routeId : PyVal) : PyVal :=
  fleetLookup routes routeId

/-- Scan of a stops list for a stop_id match inside find_stop_coords: a
matching stop with a missing lat or lon is skipped, a non-dict stop raises. -/
def findStopCoordsInStops (stopId : PyVal) :
    List PyVal → Except Unit (Option (ℚ × ℚ))
  | [] => .ok Option.none
  | s :: rest =>
      match s with
      | .dict skvs =>
          if pyEq (pyGet skvs "stop_id") stopId then
            let lat := pyGet skvs "lat"
            let lon := pyGet skvs "lon"
            if !isNoneV lat && !isNoneV lon then do
              let la ← pyToFloat lat
              let lo ← pyToFloat lon
              .ok (some (la, lo))
            else findStopCoordsInStops stopId rest
          else findStopCoordsInStops stopId rest
      | _ => .error ()

/-- Route-by-route scan of find_stop_coords. -/
def findStopCoordsInRoutes (stopId : PyVal) :
    List (String × PyVal) → Except Unit (Option (ℚ × ℚ))
  | [] => .ok Option.none
  | (_, route) :: rest =>
      match route with
      | .dict rkvs =>
          match pyGetD rkvs "stops" (.list []) with
          | .list l => do
              match ← findStopCoordsInStops stopId l with
              | some c => .ok (some c)
              | Option.none => findStopCoordsInRoutes stopId rest
          | _ => .error ()
      | _ => .error ()

/-- DecisionEngine find_stop_coords over the raw routes table: the second
stop-coordinate lookup path of the eta step. -/
def find_stop_coords (routesRaw : List (String × PyVal)) (stopId : PyVal) :
    Except Unit (Option (ℚ × ℚ)) :=
  if !pyTruthy stopId || routesRaw.isEmpty then .ok Option.none
  else findStopCoordsInRoutes stopId routesRaw

/-- Outcome of one redis get in the model: err covers a raising get or a
json.loads failure on the cached payload, miss a falsy cached value, hit a
truthy decoded payload. -/
inductive RedisResp where
  | err : RedisResp
  | miss : RedisResp
  | hit : PyVal → RedisResp

/-- External collaborators and configuration of one DecisionEngine.ask run.
ragPairs embeds retrieve_with_scores (the embedding model is an external
collaborator) and ragDocs retrieve_context; hav is the floating-point
haversine_km oracle shared by the engine and the calculator (both raise on
the same out-of-range inputs), taking the four numeric coordinates and
returning kilometres. -/
structure Env where
  ragPairs : String → List (String × ℚ)
  ragDocs : String → List String
  ragMinSim : ℚ
  llmPlan : Option (List PyVal)
  llmAnswer : Option String
  fleetBuses : List (String × PyVal)
  fleetRoutes : List (String × PyVal)
  routesRaw : List (String × PyVal)
  gpsGet : PyVal → Except Unit PyVal
  weatherByCoords : PyVal → PyVal → Except Unit PyVal
  redisOn : Bool
  redisGet : String → RedisResp
  setexOk : String → Bool
  hav : ℚ → ℚ → ℚ → ℚ → Except Unit ℚ

/-- Mutable locals of the tool loop in DecisionEngine.ask: last_bus_loc,
last_weather, and the redis writes made during this run (a later get sees
the latest setex of this run first). -/
structure ExecState where
  lastBusLoc : Option PyVal
  lastWeather : Option PyVal
  cacheOverlay : List (String × PyVal)

/-- Loop state at the start of a run. -/
def initExecState : ExecState := ⟨Option.none, Option.none, []⟩

/-- Python `x and isinstance(x, dict)` on an optional value. -/
def truthyDictKvs : Option PyVal → Option (List (String × PyVal))
  | some (.dict kvs) => if kvs.isEmpty then Option.none else some kvs
  | _ => Option.none

/-- One redis get, seeing this run's own setex writes first. -/
def redisFetch (env : Env) (st : ExecState) (k : String) : RedisResp :=
  match st.cacheOverlay.find? (fun kv => kv.1 == k) with
  | some kv => .hit kv.2
  | Option.none => env.redisGet k

/-- One setex write; a failing write is swallowed by the source. -/
def cacheWrite (env : Env) (st : ExecState) (k : String) (v : PyVal) :
    ExecState :=
  if env.setexOk k then { st with cacheOverlay := (k, v) :: st.cacheOverlay }
  else st

/-- Python round(q, digits), modelled with the mathematical rounding of the
rational (the source rounds IEEE floats; the value only builds cache keys
and the displayed distance_km field). -/
def roundQ (q : ℚ) (digits : ℕ) : ℚ :=
  ((round (q * 10 ^ digits) : ℤ) : ℚ) / 10 ^ digits

/-- The weather cache key with coordinates rounded to 3 decimals. -/
def weatherCacheKey (klat klon : ℚ) : String :=
  "weather:" ++ toString klat ++ ":" ++ toString klon

/-- The eta cache key. -/
def etaCacheKey (busId stopId : PyVal) : String :=
  "eta:" ++ pyStr busId ++ ":" ++ pyStr stopId

/-- The gps tool branch of DecisionEngine.ask (lines 338-354): resolve a bus
id from params or the query, call the live lookup, remember the result dict
(success or error) as last_bus_loc. -/
def runGpsStep (env : Env) (query : String) (st : ExecState)
    (params : List (String × PyVal)) : Except Unit (ExecState × PyVal) :=
  let busId := pyOr (pyGet params "bus_id") (busIdFromQuery query)
  if pyTruthy busId then do
    let live ← env.gpsGet busId
    let result ←
      (if pyTruthy live then
        match live with
        | .dict lk =>
            Except.ok (PyVal.dict [("bus_id", pyGetD lk "bus_id" busId),
              ("lat", pyGet lk "lat"), ("lon", pyGet lk "lon"),
              ("speed_kmph", pyGetD lk "speed_kmph" (.float 20))])
        | _ => Except.error ()
      else
        Except.ok (PyVal.dict
          [("error", .str ("No GPS data for bus " ++ pyStr busId))]))
    .ok ({ st with lastBusLoc := some result }, result)
  else .ok (st, .dict [("error", .str "No bus_id provided for gps tool")])

/-- The fresh-fetch tail of the weather branch: call the provider, remember
last_weather, write the cache. -/
def runWeatherFresh (env : Env) (st : ExecState) (lat lon : PyVal)
    (key? : Option String) : Except Unit (ExecState × PyVal) := do
  let result ← env.weatherByCoords lat lon
  let st1 := { st with lastWeather :=
    (match result with | .dict _ => some result | _ => Option.none) }
  let st2 :=
    match key?, result with
    | some k, .dict _ => if env.redisOn then cacheWrite env st1 k result else st1
    | _, _ => st1
  .ok (st2, result)

/-- The weather tool branch of DecisionEngine.ask (lines 356-402). -/
def runWeatherStep (env : Env) (st : ExecState)
    (params : List (String × PyVal)) : Except Unit (ExecState × PyVal) := do
  let lat0 := pyGet params "lat"
  let lon0 := pyGet params "lon"
  let (lat, lon) :=
    if isNoneV lat0 || isNoneV lon0 then
      match truthyDictKvs st.lastBusLoc with
      | some kvs => (pyGet kvs "lat", pyGet kvs "lon")
      | Option.none => (lat0, lon0)
    else (lat0, lon0)
  if !isNoneV lat && !isNoneV lon then do
    let key? ←
      (if env.redisOn then do
        let kl ← pyToFloat lat
        let klon ← pyToFloat lon
        Except.ok (some (weatherCacheKey (roundQ kl 3) (roundQ klon 3)))
      else Except.ok Option.none)
    match key? with
    | some k =>
        match redisFetch env st k with
        | .hit v =>
            .ok ({ st with lastWeather :=
              (match v with | .dict _ => some v | _ => Option.none) }, v)
        | _ => runWeatherFresh env st lat lon key?
    | Option.none => runWeatherFresh env st lat lon Option.none
  else .ok (st, .dict [("error", .str "No coordinates available for weather tool")])

/-- Scan of a route's stops inside the eta step's first lookup path (lines
432-435): first stop whose stop_id equals the requested one; a non-dict
element raises on .get. -/
def findRouteStop (stopId : PyVal) :
    List PyVal → Except Unit (Option (List (String × PyVal)))
  | [] => .ok Option.none
  | s :: rest =>
      match s with
      | .dict skvs =>
          if pyEq (pyGet skvs "stop_id") stopId then .ok (some skvs)
          else findRouteStop stopId rest
      | _ => .error ()

/-- Lookup path 1 of the eta step (lines 425-438): fleet registry via the
bus's current route.  Yields the stop's lat/lon values (None when the path
does not apply or the found stop is falsy). -/
def resolveStopPath1 (env : Env) (busId stopId : PyVal) :
    Except Unit (PyVal × PyVal) := do
  if pyTruthy busId then do
    let status ← get_bus_status env.fleetBuses busId
    let routeId := match status with | .dict skvs => pyGet skvs "route_id" | _ => PyVal.none
    if pyTruthy routeId then
      match get_route env.fleetRoutes routeId with
      | .dict rkvs =>
          match pyOr (pyGet rkvs "stops") (.list []) with
          | .list l => do
              match ← findRouteStop stopId l with
              | some skvs =>
                  if !(PyVal.dict skvs |> pyTruthy) then .ok (.none, .none)
                  else .ok (pyGet skvs "lat", pyGet skvs "lon")
              | Option.none => .ok (.none, .none)
          | _ => .error ()
      | _ => .error ()
    else .ok (.none, .none)
  else .ok (.none, .none)

/-- Lookup path 3 of the eta step (lines 448-454): the first context
document containing the stop id and at least two number-like tokens gives
the coordinates. -/
def findCtxCoords (sid : String) : List String → Option (ℚ × ℚ)
  | [] => Option.none
  | d :: rest =>
      if containsSub d sid then
        match findFloatTokens d with
        | n0 :: n1 :: _ =>
            some ((parseFloatChars n0.data).toOption.getD 0,
              (parseFloatChars n1.data).toOption.getD 0)
        | _ => findCtxCoords sid rest
      else findCtxCoords sid rest

/-- The stop-coordinate fallback chain of the eta step (lines 422-454):
registry via the bus's route, then the raw routes table, then regex
extraction from the retrieved context.  Path 2 and 3 run only while
stop_lat is still None; path 3 raises if the stop id is a truthy
non-string (Python `in` on str). -/
def resolveStopChain (env : Env) (context : List String)
    (busId stopId : PyVal) : Except Unit (PyVal × PyVal) := do
  let (lat1, lon1) ← resolveStopPath1 env busId stopId
  let (lat2, lon2) ←
    (if isNoneV lat1 then do
      match ← find_stop_coords env.routesRaw stopId with
      | some (la, lo) => Except.ok (PyVal.float la, PyVal.float lo)
      | Option.none => Except.ok (lat1, lon1)
    else Except.ok (lat1, lon1))
  if isNoneV lat2 && pyTruthy stopId then
    match stopId with
    | .str sid =>
        match findCtxCoords sid context with
        | some (la, lo) => .ok (.float la, .float lo)
        | Option.none => .ok (lat2, lon2)
    | _ => .error ()
  else .ok (lat2, lon2)

/-- The bus-coordinate resolution of the eta step (lines 456-466): last
known position, then a fresh gps lookup overwriting both coordinates. -/
def resolveBusPair (env : Env) (st : ExecState) (busId : PyVal) :
    Except Unit (PyVal × PyVal) := do
  let (lat0, lon0) :=
    match truthyDictKvs st.lastBusLoc with
    | some kvs => (pyGet kvs "lat", pyGet kvs "lon")
    | Option.none => (PyVal.none, PyVal.none)
  if (isNoneV lat0 || isNoneV lon0) && pyTruthy busId then do
    let live ← env.gpsGet busId
    if pyTruthy live then
      match live with
      | .dict lk => .ok (pyGet lk "lat", pyGet lk "lon")
      | _ => .error ()
    else .ok (lat0, lon0)
  else .ok (lat0, lon0)

/-- The weather delay read from a prior weather step (lines 487-493). -/
def etaWeatherDelay (st : ExecState) : PyVal :=
  match truthyDictKvs st.lastWeather with
  | some wk => pyOr (pyOr (pyGet wk "expected_delay_sec") (pyGet wk "delay")) (.int 0)
  | Option.none => .int 0

/-- The speed resolution of the eta step (lines 472-478): last known
speed_kmph converted with float(), 25.0 on absence or failure. -/
def resolveSpeed (st : ExecState) : ℚ :=
  let speedV :=
    match truthyDictKvs st.lastBusLoc with
    | some kvs => pyGet kvs "speed_kmph"
    | Option.none => PyVal.none
  match speedV with
  | .none => 25
  | v => match pyToFloat v with | .ok q => q | .error _ => 25

/-- The haversine_km call of the eta step: non-numeric coordinates raise in
math.radians, numeric ones go to the floating-point oracle. -/
def havValue (env : Env) (a b c d : PyVal) : Except Unit ℚ :=
  match pyNum? a, pyNum? b, pyNum? c, pyNum? d with
  | some x, some y, some z, some w => env.hav x y z w
  | _, _, _, _ => .error ()

/-- The eta fallback result of line 469 (resolution failure). -/
def etaFallbackResult (stopId : PyVal) : PyVal :=
  .dict [("eta_sec", .int 1200), ("stop_id", stopId), ("fallback", .bool true)]

/-- The eta fallback result of line 516 (exception inside the step). -/
def etaExceptionResult : PyVal :=
  .dict [("eta_sec", .int 1200), ("fallback", .bool true)]

/-- The successful eta result dict (lines 495-501). -/
def etaSuccessResult (distKm speed : ℚ) (wd : ℤ)
    (stopId stopLat stopLon : PyVal) : PyVal :=
  .dict [("eta_sec", .int (etaStepWithDelay distKm speed wd)),
    ("distance_km", .float (roundQ distKm 2)),
    ("speed_kmph", .float speed),
    ("stop_id", stopId),
    ("stop", .dict [("lat", stopLat), ("lon", stopLon)])]

/-- The state after the eta step's cache write (lines 503-509): the
successful result is written only when a cache key exists. -/
def etaPostState (env : Env) (st : ExecState) (key? : Option String)
    (result : PyVal) : ExecState :=
  match key? with
  | some k => if env.redisOn then cacheWrite env st k result else st
  | Option.none => st

/-- The cache-miss body of the eta step (lines 422-509): resolve both
endpoints, fall back to 1200 s if any part is unresolved, otherwise compute
the distance, the speed, the imminent-arrival cutoff and the weather delay,
and write the successful result to the eta cache. -/
def etaComputeFresh (env : Env) (context : List String) (st : ExecState)
    (busId stopId : PyVal) (key? : Option String) :
    Except Unit (ExecState × PyVal) := do
  let sp ← resolveStopChain env context busId stopId
  let bp ← resolveBusPair env st busId
  if !(pyTruthy busId && !isNoneV bp.1 && !isNoneV bp.2 &&
      !isNoneV sp.1 && !isNoneV sp.2) then
    .ok (st, etaFallbackResult stopId)
  else do
    let distKm ← havValue env bp.1 bp.2 sp.1 sp.2
    let wd ← pyToInt (etaWeatherDelay st)
    let result := etaSuccessResult distKm (resolveSpeed st) wd stopId sp.1 sp.2
    .ok (etaPostState env st key? result, result)

/-- The bus id of the eta step: params, then the query regex (line 406). -/
def etaBusIdOf (query : String) (params : List (String × PyVal)) : PyVal :=
  pyOr (pyGet params "bus_id") (busIdFromQuery query)

/-- The stop id of the eta step: stop_id, stop, then "S1" (line 407). -/
def etaStopIdOf (params : List (String × PyVal)) : PyVal :=
  pyOr (pyOr (pyGet params "stop_id") (pyGet params "stop")) (.str "S1")

/-- The eta cache key, present only with redis and truthy ids (line 410). -/
def etaKeyOf (env : Env) (busId stopId : PyVal) : Option String :=
  if env.redisOn && pyTruthy busId && pyTruthy stopId then
    some (etaCacheKey busId stopId)
  else Option.none

/-- The eta tool branch of DecisionEngine.ask (lines 404-509): id and stop
resolution, the eta cache consult (a hit is returned as-is), then the fresh
computation. -/
def runEtaStep (env : Env) (query : String) (context : List String)
    (st : ExecState) (params : List (String × PyVal)) :
    Except Unit (ExecState × PyVal) :=
  let busId := etaBusIdOf query params
  let stopId := etaStopIdOf params
  match etaKeyOf env busId stopId with
  | some k =>
      match redisFetch env st k with
      | .hit v => .ok (st, v)
      | _ => etaComputeFresh env context st busId stopId (some k)
  | Option.none => etaComputeFresh env context st busId stopId Option.none

/-- The params of a step: the params value when it is a mapping, else {}
(line 335). -/
def stepParams (skvs : List (String × PyVal)) : List (String × PyVal) :=
  match pyGet skvs "params" with | .dict p => p | _ => []

/-- The per-step exception handler (lines 514-518): a raise becomes the
eta fallback for the eta tool and a structured error for the others. -/
def catchStep (st : ExecState) (toolName : PyVal) :
    Except Unit (ExecState × PyVal) → ExecState × PyVal
  | .ok r => r
  | .error _ =>
      (st, if pyEq toolName (.str "eta") then etaExceptionResult
        else .dict [("error", .str "exception")])

/-- One step of the tool loop (lines 333-520): non-mapping steps raise past
the per-step handler (tool_name lookup is outside the try); everything else
is caught at the step boundary, eta turning into its 1200 s fallback and
the other tools into a structured error result. -/
def runStep (env : Env) (query : String) (context : List String)
    (st : ExecState) (step : PyVal) : Except Unit (ExecState × PyVal) :=
  match step with
  | .dict skvs =>
      let toolName := pyGet skvs "tool"
      let params := stepParams skvs
      let body : Except Unit (ExecState × PyVal) :=
        if pyEq toolName (.str "gps") then runGpsStep env query st params
        else if pyEq toolName (.str "weather") then runWeatherStep env st params
        else if pyEq toolName (.str "eta") then
          runEtaStep env query context st params
        else .ok (st, .dict [("info", .str "no-op")])
      .ok (catchStep st toolName body)
  | _ => .error ()

/-- The tool loop: strictly sequential, one trace entry appended per step. -/
def execPlan (env : Env) (query : String) (context : List String) :
    ExecState → List PyVal → Except Unit (List PyVal)
  | _, [] => .ok []
  | st, step :: rest => do
      let p ← runStep env query context st step
      let tail ← execPlan env query context p.1 rest
      .ok (.dict [("step", step), ("result", p.2)] :: tail)

/-- The first trace entry whose step's tool is "eta" and whose result is a
dict (lines 552-558 of the engine's fallback composer, and lines 115-120 of
the notifier): a truthy non-dict step or a non-dict entry raises. -/
def firstEtaResult : List PyVal → Except Unit (Option (List (String × PyVal)))
  | [] => .ok Option.none
  | tr :: rest =>
      match tr with
      | .dict tkvs =>
          match pyOr (pyGet tkvs "step") (.dict []) with
          | .dict skvs =>
              if pyEq (pyGet skvs "tool") (.str "eta") then
                match pyGet tkvs "result" with
                | .dict rkvs => .ok (some rkvs)
                | _ => firstEtaResult rest
              else firstEtaResult rest
          | _ => .error ()
      | _ => .error ()

/-- The hour/minute duration text shared by the engine's fallback composer
and the supervisor (Python // is floor division). -/
def durationText (etaSec : ℤ) : String :=
  let hours := Int.fdiv etaSec 3600
  let minutes := Int.fdiv (Int.emod etaSec 3600) 60
  if hours > 0 then
    toString hours ++ " hour" ++ (if hours ≠ 1 then "s" else "") ++
      (if minutes ≠ 0 then
        " " ++ toString minutes ++ " minute" ++ (if minutes ≠ 1 then "s" else "")
      else "")
  else if minutes > 0 then
    toString minutes ++ " minute" ++ (if minutes ≠ 1 then "s" else "")
  else "a few seconds"

/-- The deterministic composer of DecisionEngine.ask (lines 549-576). -/
def composeFallbackAnswer (trace : List PyVal) : Except Unit String := do
  match ← firstEtaResult trace with
  | Option.none => .ok noInfoMessage
  | some rkvs =>
      let etaSecV := pyOr (pyGet rkvs "eta_sec") (pyGet rkvs "eta")
      let etaStopV := pyGet rkvs "stop_id"
      if isNoneV etaSecV then .ok noInfoMessage
      else
        match pyToInt etaSecV with
        | .error _ => .ok noInfoMessage
        | .ok e =>
            .ok ("The bus is expected to reach stop " ++
              pyStr (pyOr etaStopV (.str "")) ++ " in about " ++
              durationText e ++ ".")

/-- The result triple of DecisionEngine.ask: answer, tool_results, context. -/
structure AskResult where
  answer : String
  toolResults : List PyVal
  context : List String
deriving Repr

/-- The final answer of ask (lines 522-576): the stripped generative
composer output when present and non-blank, else the deterministic
composer (whose raise escapes to the top-level handler). -/
def askAnswer (env : Env) (trace : List PyVal) : Except Unit String :=
  match env.llmAnswer with
  | some t =>
      let t' := pyStrip t
      if t' ≠ "" then .ok t' else composeFallbackAnswer trace
  | Option.none => composeFallbackAnswer trace

/-- Packaging of the final answer: a raise during composition reaches the
top-level handler and produces the apology with empty trace and context. -/
def askFinal (trace : List PyVal) (context : List String) :
    Except Unit String → AskResult
  | .error _ => ⟨crashMessage, [], []⟩
  | .ok a => ⟨a, trace, context⟩

/-- max((p[1] for p in pairs), default=0.0) of guardrail 4. -/
def maxSimOf (pairs : List (String × ℚ)) : ℚ :=
  match pairs.map (·.2) with
  | [] => 0
  | s :: rest => rest.foldl max s

/-- Guardrail 4 condition: retrieved documents exist and the best
similarity is under the configured minimum. -/
def relevanceTrip (env : Env) (query : String) : Bool :=
  let pairs := env.ragPairs query
  !(pairs.map (·.1)).isEmpty && ratLtB (maxSimOf pairs) env.ragMinSim

/-- The context handed to planning and execution: the scored documents, or
retrieve_context when that list is empty (line 281). -/
def ragContext (env : Env) (query : String) : List String :=
  let contextDocs := (env.ragPairs query).map (·.1)
  if contextDocs.isEmpty then env.ragDocs query else contextDocs

/-- The plan ask executes: the generative plan when present and non-falsy,
else fallback_plan on the raw (unstripped) user query (lines 295-327). -/
def effectivePlan (env : Env) (userQuery : String) : List PyVal :=
  match env.llmPlan with
  | some p => if p.isEmpty then fallback_plan userQuery else p
  | Option.none => fallback_plan userQuery

/-- DecisionEngine.ask: guardrails in order (blank, domain, entities,
relevance), retrieval, planning (generative plan or fallback_plan on the
raw query), the tool loop, and composition (generative answer or the
deterministic composer); a raise anywhere inside is caught at the top and
becomes the apology answer with empty trace and context. -/
def ask (env : Env) (userQuery : String) : AskResult :=
  let query := pyStrip userQuery
  if query == "" then ⟨noInfoMessage, [], []⟩
  else if !is_transport_query query then ⟨oodMessage, [], []⟩
  else
    match validate_referenced_entities env.fleetBuses env.fleetRoutes query with
    | some reason => ⟨reason, [], []⟩
    | Option.none =>
        if relevanceTrip env query then
          ⟨relevanceMessage, [], []⟩
        else
          let context := ragContext env query
          let plan := effectivePlan env userQuery
          match execPlan env userQuery context initExecState plan with
          | .error _ => ⟨crashMessage, [], []⟩
          | .ok trace => askFinal trace context (askAnswer env trace)

/-- The notification threshold (lines 105-108 of the notifier): the stored
notify_before_sec as an int, 300 when it is missing (None) or int() fails. -/
def notifyThreshold (nbRaw : PyVal) : ℤ :=
  if isNoneV nbRaw then 300
  else match pyToInt nbRaw with | .ok n => n | .error _ => 300

/-- NotificationAgent.process_subscriptions, one subscription of the loop
(lines 90-142), for the dict-shaped subscriptions of the in-memory store
(getattr on a dict yields the default, so every field comes from .get).
The engine run is abstracted by the trace it returned (tool_results of
engine.ask).  Returns the delivered notification (user, message, channel),
or none when the subscription is skipped; the per-subscription exception
handler turns a raise (malformed trace entry) into a skip as well. -/
def processOneSub (sub : PyVal) (trace : List PyVal) :
    Option (PyVal × String × PyVal) :=
  match sub with
  | .dict skvs =>
      let userId := pyGet skvs "user_id"
      let busId := pyGet skvs "bus_id"
      let stopId := pyGet skvs "stop_id"
      let nbRaw := pyGet skvs "notify_before_sec"
      let channel := pyGet skvs "channel"
      if !pyTruthy userId || !pyTruthy busId || !pyTruthy stopId then
        Option.none
      else
        let notifyBefore := notifyThreshold nbRaw
        match firstEtaResult trace with
        | .error _ => Option.none
        | .ok Option.none => Option.none
        | .ok (some rkvs) =>
            let v := pyOr (pyGet rkvs "eta_sec") (pyGet rkvs "eta")
            if isNoneV v then Option.none
            else
              match pyToInt v with
              | .error _ => Option.none
              | .ok e =>
                  if 0 ≤ e ∧ e ≤ notifyBefore then
                    let minutes := max 1 (Int.fdiv e 60)
                    some (userId,
                      "Bus " ++ pyStr busId ++ " is expected to reach stop " ++
                        pyStr stopId ++ " in about " ++ toString minutes ++
                        " minute" ++ (if minutes ≠ 1 then "s" else "") ++ ".",
                      channel)
                  else Option.none
  | _ => Option.none

/-- Words of a string in Python str.split() order. -/
def pyWordsAux (acc : List Char) : List Char → List (List Char)
  | [] => if acc.isEmpty then [] else [acc.reverse]
  | c :: cs =>
      if isPySpace c then
        if acc.isEmpty then pyWordsAux [] cs
        else acc.reverse :: pyWordsAux [] cs
      else pyWordsAux (c :: acc) cs

/-- Python s.split() (whitespace runs separate words). -/
def pyWords (cs : List Char) : List (List Char) := pyWordsAux [] cs

/-- Joining words with single spaces. -/
def joinWords : List (List Char) → List Char
  | [] => []
  | [w] => w
  | w :: ws => w ++ ' ' :: joinWords ws

/-- Python " ".join(s.split()): whitespace collapsed to single spaces. -/
def collapseWs (s : String) : String := ⟨joinWords (pyWords s.data)⟩

/-- SupervisorAgent.handle_user_query answer when nothing was composed. -/
def sorryAnswer : String := "Sorry, I could not answer your question."

/-- The alternate-bus suggestion of SupervisorAgent.handle_user_query. -/
def altBusText (altId : String) (routeIdV stopIdV : PyVal) : String :=
  " As an alternative, you could consider taking bus " ++ altId ++
    " on route " ++ pyStr routeIdV ++ ", which may reach stop " ++
    pyStr stopIdV ++ " earlier depending on its schedule."

/-- The generic faster-mode suggestion of SupervisorAgent.handle_user_query. -/
def genericAltText (stopIdV : PyVal) : String :=
  " Since the current ETA is more than 30 minutes, you may also consider " ++
    "a faster mode such as metro/rail or a cab for most of the journey, " ++
    "and then a short auto/taxi ride near stop " ++ pyStr stopIdV ++ "."

/-- The scan of lines 53-65 of the supervisor: the last eta entry whose
result dict has an eta_sec or eta key, and the last gps entry.  Non-dict
entries and non-dict steps are skipped; a truthy non-string tool raises
(.lower on it). -/
def supScanEntries :
    List PyVal → Option PyVal × Option PyVal →
      Except Unit (Option PyVal × Option PyVal)
  | [], acc => .ok acc
  | tr :: rest, (etaAcc, gpsAcc) =>
      match tr with
      | .dict tkvs =>
          match pyOr (pyGet tkvs "step") (.dict []) with
          | .dict skvs =>
              match pyOr (pyGet skvs "tool") (.str "") with
              | .str ts =>
                  let tool := pyLower ts
                  let res := pyGet tkvs "result"
                  let etaAcc' :=
                    if tool == "eta" then
                      match res with
                      | .dict rkvs =>
                          if dictHasKey rkvs "eta_sec" || dictHasKey rkvs "eta"
                          then some tr else etaAcc
                      | _ => etaAcc
                    else etaAcc
                  let gpsAcc' := if tool == "gps" then some tr else gpsAcc
                  supScanEntries rest (etaAcc', gpsAcc')
              | _ => .error ()
          | _ => supScanEntries rest (etaAcc, gpsAcc)
      | _ => supScanEntries rest (etaAcc, gpsAcc)

/-- The bus id taken from the last gps entry when the eta step's params have
none (line 76-80 of the supervisor). -/
def supGpsBusId : Option PyVal → PyVal
  | some (.dict gkvs) =>
      (match pyGet gkvs "result" with
        | .dict grkvs => pyGet grkvs "bus_id"
        | _ => PyVal.none)
  | _ => PyVal.none

/-- The first other bus on the primary bus's route in fleet order (lines
110-114 of the supervisor). -/
def firstAltBus (buses : List (String × PyVal)) (busIdV mainRoute : PyVal) :
    Option String :=
  (buses.find? (fun kv => !pyEq (.str kv.1) busIdV &&
      (match kv.2 with
        | .dict bk => pyEq (pyGet bk "route_id") mainRoute
        | _ => false))).map (·.1)

/-- The long-ETA enrichment (lines 104-128): for an ETA of at least 30
minutes, append the first alternate bus of the primary route, else the
generic suggestion. -/
def supAltSuffix (buses : List (String × PyVal)) (busIdV mainRoute
    stopIdV : PyVal) : String :=
  match
    (if pyTruthy mainRoute then firstAltBus buses busIdV mainRoute
     else Option.none) with
  | some altId => altBusText altId mainRoute stopIdV
  | Option.none => genericAltText stopIdV

/-- The eta entry's result dict in the supervisor (lines 69-71). -/
def supEtaResKvs (etaTr : PyVal) : List (String × PyVal) :=
  let tkvs := match etaTr with | .dict t => t | _ => []
  match pyOr (pyGet tkvs "result") (.dict []) with
  | .dict r => r
  | _ => []

/-- The eta entry's step params in the supervisor (lines 73-75). -/
def supParamsOf (etaTr : PyVal) : List (String × PyVal) :=
  let tkvs := match etaTr with | .dict t => t | _ => []
  let stepKvs :=
    match pyOr (pyGet tkvs "step") (.dict []) with
    | .dict s => s
    | _ => []
  match pyOr (pyGet stepKvs "params") (.dict []) with
  | .dict p => p
  | _ => []

/-- The raw eta value of the supervisor (line 72, falsy-tolerant chain). -/
def supEtaSecV (etaTr : PyVal) : PyVal :=
  pyOr (pyGet (supEtaResKvs etaTr) "eta_sec") (pyGet (supEtaResKvs etaTr) "eta")

/-- The displayed bus id (lines 76-80). -/
def supBusIdV (etaTr : PyVal) (gpsE : Option PyVal) : PyVal :=
  pyOr (pyOr (pyGet (supParamsOf etaTr) "bus_id") (supGpsBusId gpsE))
    (.str "the bus")

/-- The displayed stop id (line 81). -/
def supStopIdV (etaTr : PyVal) : PyVal :=
  pyOr (pyOr (pyGet (supParamsOf etaTr) "stop_id")
    (pyGet (supEtaResKvs etaTr) "stop_id")) (.str "the stop")

/-- int(eta_sec) of the supervisor (lines 82-85): None when eta_sec is None
or int() raises. -/
def supEtaInt? (etaTr : PyVal) : Option ℤ :=
  if isNoneV (supEtaSecV etaTr) then Option.none
  else
    match pyToInt (supEtaSecV etaTr) with
    | .ok n => some n
    | .error _ => Option.none

/-- The primary eta sentence of the supervisor (line 98). -/
def supEtaSentence (etaTr : PyVal) (gpsE : Option PyVal) (e : ℤ) : String :=
  "Bus " ++ pyStr (supBusIdV etaTr gpsE) ++ " is expected to reach stop " ++
    pyStr (supStopIdV etaTr) ++ " in about " ++ durationText e ++ "."

/-- The fleet status of the primary bus in the enrichment (line 107):
looked up only for a string id; the registry lookup may raise. -/
def supMainStatusE (buses : List (String × PyVal)) (busIdV : PyVal) :
    Except Unit PyVal :=
  match busIdV with
  | .str _ => get_bus_status buses busIdV
  | _ => .ok .none

/-- The primary route id of the enrichment (line 108). -/
def supMainRoute (status : PyVal) : PyVal :=
  match status with
  | .dict mk => pyGet mk "route_id"
  | _ => .none

/-- The eta sentence merged with the base answer (lines 86-96 of the
supervisor): the sentence alone when the base is absent or starts with
sorry, else the sentence prepended to the base. -/
def supFriendly1 (friendly0 : Option String) (etaSentence : String) : String :=
  match friendly0 with
  | Option.none => etaSentence
  | some f =>
      if charsPrefix "sorry".data (pyLower f).data then etaSentence
      else etaSentence ++ " " ++ f

/-- The eta sentence block of SupervisorAgent.handle_user_query (lines
67-128), given the scanned entries and the collapsed base answer. -/
def supEtaBlock (buses : List (String × PyVal)) (friendly0 : Option String)
    (etaTr : PyVal) (gpsE : Option PyVal) : Except Unit (Option String) := do
  let busIdV := supBusIdV etaTr gpsE
  let stopIdV := supStopIdV etaTr
  match supEtaInt? etaTr with
  | Option.none => .ok friendly0
  | some e =>
      let friendly1 := supFriendly1 friendly0 (supEtaSentence etaTr gpsE e)
      if e ≥ 30 * 60 then do
        let mainStatus ← supMainStatusE buses busIdV
        .ok (some (friendly1 ++
          supAltSuffix buses busIdV (supMainRoute mainStatus) stopIdV))
      else .ok (some friendly1)

/-- The tool_results list of the planner result (lines 39-41 of the
supervisor): a non-list value is replaced by the empty list. -/
def supToolResults (rkvs : List (String × PyVal)) : List PyVal :=
  match pyGetD rkvs "tool_results" (.list []) with
  | .list l => l
  | _ => []

/-- The collapsed base answer (lines 46-49): present only for a non-blank
string answer. -/
def supFriendly0 (rkvs : List (String × PyVal)) : Option String :=
  match pyGet rkvs "answer" with
  | .str s => if pyStrip s ≠ "" then some (collapseWs s) else Option.none
  | _ => Option.none

/-- The answer composition of SupervisorAgent.handle_user_query (lines
39-135) for a planner result dict: the base answer collapsed, the eta
sentence prepended (or replacing a sorry/empty base), the long-ETA
enrichment appended, the final whitespace collapse.  The call to
ensure_tool_results and the event log do not influence the answer and are
not modelled. -/
def supervisorCompose (buses : List (String × PyVal))
    (rkvs : List (String × PyVal)) : Except Unit String := do
  let trs := supToolResults rkvs
  let friendly0 := supFriendly0 rkvs
  let (etaE, gpsE) ← supScanEntries trs (Option.none, Option.none)
  let friendly? ←
    (match etaE with
      | Option.none => Except.ok friendly0
      | some etaTr => supEtaBlock buses friendly0 etaTr gpsE)
  let friendly :=
    match friendly? with
    | some f => if f == "" then sorryAnswer else f
    | Option.none => sorryAnswer
  .ok (collapseWs friendly)

/-- SupervisorAgent.handle_user_query at the answer level: none when the
planner result is falsy, carries an error key, or the composition raised
(all three return an error dict instead of an answer). -/
def handle_user_query_answer (buses : List (String × PyVal))
    (result : PyVal) : Option String :=
  if !pyTruthy result then Option.none
  else
    match result with
    | .dict rkvs =>
        if dictHasKey rkvs "error" then Option.none
        else
          match supervisorCompose buses rkvs with
          | .ok a => some a
          | .error _ => Option.none
    | _ => Option.none

/-- A minimal environment for concrete runs: no retrieval hits, no
generative model, empty registries, redis absent, every external lookup
coming back empty. -/
def envEmpty : Env where
  ragPairs := fun _ => []
  ragDocs := fun _ => []
  ragMinSim := 35 / 100
  llmPlan := Option.none
  llmAnswer := Option.none
  fleetBuses := []
  fleetRoutes := []
  routesRaw := []
  gpsGet := fun _ => .ok .none
  weatherByCoords := fun _ _ => .ok .none
  redisOn := false
  redisGet := fun _ => .miss
  setexOk := fun _ => false
  hav := fun _ _ _ _ => .error ()

/-- A small concrete fleet: B1 and B2 on route R1, stop S1 at the bus's own
integer coordinates, a live gps reading for the bus, a weather provider
reporting a 60 second delay, and a distance oracle standing at 0 km. -/
def envFleet : Env where
  ragPairs := fun _ => []
  ragDocs := fun _ => []
  ragMinSim := 35 / 100
  llmPlan := Option.none
  llmAnswer := Option.none
  fleetBuses :=
    [("B1", .dict [("route_id", .str "R1"), ("lat", .int 22),
        ("lon", .int 88), ("speed_kmph", .int 25)]),
      ("B2", .dict [("route_id", .str "R1")])]
  fleetRoutes :=
    [("R1", .dict [("stops", .list [.dict [("stop_id", .str "S1"),
        ("lat", .int 22), ("lon", .int 88)]])])]
  routesRaw := []
  gpsGet := fun _ => .ok (.dict [("bus_id", .str "B1"), ("lat", .int 22),
    ("lon", .int 88), ("speed_kmph", .int 25)])
  weatherByCoords := fun _ _ => .ok (.dict [("condition", .str "Rain"),
    ("expected_delay_sec", .int 60)])
  redisOn := false
  redisGet := fun _ => .miss
  setexOk := fun _ => false
  hav := fun _ _ _ _ => .ok 0

/-- An executor state in which a prior weather step left a 60 second
expected delay. -/
def stWeather60 : ExecState :=
  ⟨Option.none, some (.dict [("expected_delay_sec", .int 60)]), []⟩

/-- A subscription dict body with a 300 second window. -/
def subU1Kvs : List (String × PyVal) :=
  [("user_id", .str "U1"), ("bus_id", .str "B1"),
    ("stop_id", .str "S1"), ("notify_before_sec", .int 300)]

/-- A subscription dict with a 300 second window. -/
def subU1 : PyVal := .dict subU1Kvs

/-- A one-entry engine trace whose eta step computed the given eta_sec. -/
def traceEta (n : ℤ) : List PyVal :=
  [.dict [("step", .dict [("tool", .str "eta")]),
    ("result", .dict [("eta_sec", .int n)])]]

/-- The domain keywords claimed by the specification's domain-filter
sentence (modelled from the spec, for comparison with the source's
transportKeywords, which also contains "buses" and "station"). -/
def claimDomainKeywords : List String :=
  ["bus", "route", "stop", "eta", "when", "arrive", "reach", "delay",
    "traffic", "driver", "location"]

/-- A trace entry whose eta step resolved stop S1 with a 2000 second eta. -/
def c8EtaFar : PyVal :=
  .dict [("step", .dict [("tool", .str "eta"),
      ("params", .dict [("bus_id", .str "B1"), ("stop_id", .str "S1")])]),
    ("result", .dict [("eta_sec", .int 2000)])]

/-- A trace entry whose eta step resolved stop S2 with a 100 second eta. -/
def c8EtaNear : PyVal :=
  .dict [("step", .dict [("tool", .str "eta"),
      ("params", .dict [("bus_id", .str "B1"), ("stop_id", .str "S2")])]),
    ("result", .dict [("eta_sec", .int 100)])]

/-- A tool-result trace with a far eta entry followed by a near one. -/
def c8Trace : List PyVal := [c8EtaFar, c8EtaNear]

/-- A planner result carrying that trace and a benign base answer. -/
def c8Result : PyVal :=
  .dict [("answer", .str "All good"), ("tool_results", .list c8Trace)]

/-- A planner result whose only eta entry is 2000 seconds from stop S1. -/
def c8GoodKvs : List (String × PyVal) :=
  [("answer", .str "All good"), ("tool_results", .list [c8EtaFar])]

/-- The status dict get_bus_status assembles for B1 on the concrete fleet. -/
def c8MainStatus : PyVal :=
  .dict [("bus_id", .str "B1"), ("status", .str "unknown"),
    ("status_message", .str "No status available"),
    ("lat", .int 22), ("lon", .int 88), ("route_id", .str "R1"),
    ("speed_kmph", .int 25)]

-- ===== end of definitions =====

/-! ### Theorems -/

/-- A successfully computed haversine distance is non-negative. -/
theorem haversine_meters_nonneg {lat1 lon1 lat2 lon2 : ℝ} {d : ℝ}
    (h : haversine_meters lat1 lon1 lat2 lon2 = .ok d) : 0 ≤ d := by
  simp only [haversine_meters] at h
  split at h
  · exact absurd h (by simp)
  · split at h
    · exact absurd h (by simp)
    · simp only [Except.ok.injEq] at h
      rw [← h]
      exact mul_nonneg (by norm_num)
        (Real.arcsin_nonneg.mpr (Real.sqrt_nonneg _))

/-- Truncation toward zero agrees with the floor on non-negative rationals. -/
theorem ratTrunc_eq_floor {q : ℚ} (h : 0 ≤ q) : ratTrunc q = ⌊q⌋ := by
  unfold ratTrunc
  rw [Int.tdiv_eq_ediv (Rat.num_nonneg.mpr h) (by positivity), Rat.floor_def]

/-- Truncation toward zero is monotone on non-negative rationals. -/
theorem ratTrunc_mono {a b : ℚ} (ha : 0 ≤ a) (hab : a ≤ b) :
    ratTrunc a ≤ ratTrunc b := by
  rw [ratTrunc_eq_floor ha, ratTrunc_eq_floor (le_trans ha hab)]
  exact Int.floor_le_floor hab

/-- The calculator's seconds are monotone in the distance at fixed speed. -/
theorem calculate_eta_seconds_km_mono {d1 d2 : ℚ} (speed : ℚ)
    (h0 : 0 ≤ d1) (h12 : d1 ≤ d2) :
    calculate_eta_seconds_km d1 speed ≤ calculate_eta_seconds_km d2 speed := by
  unfold calculate_eta_seconds_km
  have hm : (0 : ℚ) < max (speed * 1000 / 3600) (1 / 10) :=
    lt_of_lt_of_le (by norm_num) (le_max_right _ _)
  refine ratTrunc_mono (div_nonneg (by linarith) (le_of_lt hm)) ?_
  exact (div_le_div_iff_of_pos_right hm).mpr (by linarith)

/-- C10: calculate_eta_seconds is total and safe at its public interface:
for all real coordinates and any speed_kmph (zero and negative included,
with the call-site default traffic multiplier 1.0) it returns a
non-negative integer — the divisor is floored at 0.1 m/s, a raise inside
the haversine (math.sqrt of a negative, math.asin beyond 1) is caught and
becomes the 9999 sentinel — and no exception escapes (the embedding is a
total function into ℤ). -/
theorem c10_calculate_eta_seconds_total_nonneg
    (lat1 lon1 lat2 lon2 speed_kmph : ℝ) :
    0 ≤ calculate_eta_seconds lat1 lon1 lat2 lon2 speed_kmph 1 := by
  unfold calculate_eta_seconds
  cases h : haversine_meters lat1 lon1 lat2 lon2 with
  | error e => norm_num
  | ok d =>
      have hd : 0 ≤ d := haversine_meters_nonneg h
      have hm : (0 : ℝ) < max (speed_kmph * 1000 / 3600) (1 / 10) :=
        lt_of_lt_of_le (by norm_num) (le_max_right _ _)
      have hx : 0 ≤ d / max (speed_kmph * 1000 / 3600) (1 / 10) * 1 := by
        rw [mul_one]; exact div_nonneg hd (le_of_lt hm)
      simp only []
      unfold pyTruncR
      rw [if_pos hx]
      exact Int.floor_nonneg.mpr hx

/-- C3 counterexample: the step's ETA is not monotone in the great-circle
distance across the 100 m imminent-arrival cutoff.  At fixed speed 36 km/h
and weather delay 0, a stop 0.05 km away gets the fixed 120 s while a stop
0.15 km away gets 15 s, so d1 < d2 yet the ETA for d1 exceeds the ETA for
d2. -/
theorem c3_counterexample :
    (1 / 20 : ℚ) < 3 / 20 ∧
      etaStepWithDelay (3 / 20) 36 0 < etaStepWithDelay (1 / 20) 36 0 := by
  have h1 : etaStepWithDelay (1 / 20) 36 0 = 120 := by
    unfold etaStepWithDelay etaStepSeconds
    rw [if_pos (by norm_num)]
    norm_num
  have h2 : etaStepWithDelay (3 / 20) 36 0 = 15 := by
    unfold etaStepWithDelay etaStepSeconds calculate_eta_seconds_km
    rw [if_neg (by norm_num)]
    have hmax : max ((36 : ℚ) * 1000 / 3600) (1 / 10) = 10 := by
      rw [max_eq_left] <;> norm_num
    rw [hmax]
    have hq : (1000 * (3 / 20 : ℚ)) / 10 = 15 := by norm_num
    rw [hq, ratTrunc_eq_floor (by norm_num)]
    norm_num
  refine ⟨by norm_num, ?_⟩
  rw [h1, h2]
  norm_num

/-- C3 (amended): the ETA computed by the eta step is monotone in the
great-circle distance at fixed speed and weather delay provided the two
stops are on the same side of the 100 m imminent-arrival cutoff (both
under it, where the ETA is the fixed 120 s plus delay, or both at or above
it, where it is distance over floored speed plus delay). -/
theorem c3_eta_monotone_same_regime (d1 d2 speed : ℚ) (delay : ℤ)
    (h0 : 0 ≤ d1) (h12 : d1 ≤ d2) (hside : d2 < 1 / 10 ∨ 1 / 10 ≤ d1) :
    etaStepWithDelay d1 speed delay ≤ etaStepWithDelay d2 speed delay := by
  unfold etaStepWithDelay etaStepSeconds
  rcases hside with h2 | h1
  · rw [if_pos (lt_of_le_of_lt h12 h2), if_pos h2]
  · rw [if_neg (not_lt.mpr h1), if_neg (not_lt.mpr (le_trans h1 h12))]
    exact add_le_add_right (calculate_eta_seconds_km_mono speed h0 h12) delay

/-- C3 witness: the amended monotonicity applied at distances 0.1 km and
0.2 km, speed 36 km/h, delay 0. -/
theorem c3_witness :
    (0 : ℚ) ≤ 1 / 10 ∧ (1 / 10 : ℚ) ≤ 2 / 10 ∧
      etaStepWithDelay (1 / 10) 36 0 ≤ etaStepWithDelay (2 / 10) 36 0 :=
  ⟨by norm_num, by norm_num,
    c3_eta_monotone_same_regime (1 / 10) (2 / 10) 36 0 (by norm_num)
      (by norm_num) (Or.inr (le_refl _))⟩

/-- Bind of a successful Except computation. -/
theorem exceptBind_ok {α β : Type} (a : α) (f : α → Except Unit β) :
    (Except.ok a >>= f) = f a := rfl

/-- Bind of a failed Except computation. -/
theorem exceptBind_err {α β : Type} (e : Unit) (f : α → Except Unit β) :
    ((Except.error e : Except Unit α) >>= f) = Except.error e := by
  cases e; rfl

/-- A value equal (in Python's ==) to a string literal is that string. -/
theorem pyEq_str_right {v : PyVal} {s : String}
    (h : pyEq v (.str s) = true) : v = .str s := by
  cases v <;> simp [pyEq, pyNum?] at h
  exact congrArg PyVal.str (by simpa using h)

/-- The eta body returns the resolution fallback on a failed guard. -/
theorem etaComputeFresh_guard_false {env : Env} {context : List String}
    {st : ExecState} {busId stopId : PyVal} {key? : Option String}
    {sl sln bl bln : PyVal}
    (hsp : resolveStopChain env context busId stopId = .ok (sl, sln))
    (hbp : resolveBusPair env st busId = .ok (bl, bln))
    (hguard : (pyTruthy busId && !isNoneV bl && !isNoneV bln &&
      !isNoneV sl && !isNoneV sln) = false) :
    etaComputeFresh env context st busId stopId key? =
      .ok (st, etaFallbackResult stopId) := by
  unfold etaComputeFresh
  rw [hsp]
  simp only [exceptBind_ok]
  rw [hbp]
  simp only [exceptBind_ok, hguard, Bool.not_false, if_true]

/-- The eta body returns the success dict when everything resolves. -/
theorem etaComputeFresh_success {env : Env} {context : List String}
    {st : ExecState} {busId stopId : PyVal} {key? : Option String}
    {sl sln bl bln : PyVal} {d : ℚ} {wd : ℤ}
    (hsp : resolveStopChain env context busId stopId = .ok (sl, sln))
    (hbp : resolveBusPair env st busId = .ok (bl, bln))
    (hguard : (pyTruthy busId && !isNoneV bl && !isNoneV bln &&
      !isNoneV sl && !isNoneV sln) = true)
    (hhav : havValue env bl bln sl sln = .ok d)
    (hwd : pyToInt (etaWeatherDelay st) = .ok wd) :
    etaComputeFresh env context st busId stopId key? =
      .ok (etaPostState env st key?
          (etaSuccessResult d (resolveSpeed st) wd stopId sl sln),
        etaSuccessResult d (resolveSpeed st) wd stopId sl sln) := by
  unfold etaComputeFresh
  rw [hsp]
  simp only [exceptBind_ok]
  rw [hbp]
  simp only [exceptBind_ok, hguard, Bool.not_true, Bool.false_eq_true,
    if_false]
  rw [hhav]
  simp only [exceptBind_ok]
  rw [hwd]
  simp only [exceptBind_ok]

/-- On a cache miss (or without redis), the eta step runs its fresh body. -/
theorem runEtaStep_miss {env : Env} {query : String} {context : List String}
    {st : ExecState} {params : List (String × PyVal)}
    (hmiss : ∀ k v, etaKeyOf env (etaBusIdOf query params)
        (etaStopIdOf params) = some k → redisFetch env st k ≠ .hit v) :
    runEtaStep env query context st params =
      etaComputeFresh env context st (etaBusIdOf query params)
        (etaStopIdOf params) (etaKeyOf env (etaBusIdOf query params)
          (etaStopIdOf params)) := by
  unfold runEtaStep
  cases hk : etaKeyOf env (etaBusIdOf query params) (etaStopIdOf params) with
  | none => simp only [hk]
  | some k =>
      simp only [hk]
      cases hrf : redisFetch env st k with
      | hit v => exact absurd hrf (hmiss k v hk)
      | miss => simp only [hrf]
      | err => simp only [hrf]

/-- An eta-tool step is dispatched to runEtaStep and its failures are
caught into the exception fallback. -/
theorem runStep_eta {env : Env} {query : String} {context : List String}
    {st : ExecState} {skvs : List (String × PyVal)}
    (htool : pyGet skvs "tool" = .str "eta") :
    runStep env query context st (.dict skvs) =
      .ok (catchStep st (.str "eta")
        (runEtaStep env query context st (stepParams skvs))) := by
  have hg : pyEq (PyVal.str "eta") (.str "gps") = false := rfl
  have hw : pyEq (PyVal.str "eta") (.str "weather") = false := rfl
  have he : pyEq (PyVal.str "eta") (.str "eta") = true := rfl
  simp only [runStep, htool, hg, hw, he, Bool.false_eq_true, if_false,
    if_true]

/-- The deterministic fallback planner never returns an empty plan. -/
theorem fallback_plan_ne_nil (query : String) : fallback_plan query ≠ [] := by
  by_cases h : (fallback_plan_rules query).isEmpty
  · simp [fallback_plan, h]
  · simp only [Bool.not_eq_true] at h
    simp only [fallback_plan, h, Bool.false_eq_true, if_false]
    intro hc
    rw [hc] at h
    simp at h

/-- Inserting into a sorted list never yields the empty list. -/
theorem insertSorted_ne_nil (x : String) (l : List String) :
    insertSorted x l ≠ [] := by
  cases l with
  | nil => simp [insertSorted]
  | cons y ys =>
      simp only [insertSorted]
      split <;> simp

/-- Sorting a non-empty list yields a non-empty list. -/
theorem sortStrings_ne_nil {l : List String} (h : l ≠ []) :
    sortStrings l ≠ [] := by
  cases l with
  | nil => exact absurd rfl h
  | cons x xs => exact insertSorted_ne_nil x (sortStrings xs)

/-- No identifier matches means no sorted mentions. -/
theorem entityMentions_eq_nil (cl cu : Char) (t : String)
    (h : idMatches cl cu t = []) : entityMentions cl cu t = [] := by
  simp [entityMentions, h, sortStrings]

/-- A query with a word-bounded bus identifier passes the domain filter. -/
theorem is_transport_of_busid {q : String}
    (h : idMatches 'b' 'B' q ≠ []) : is_transport_query q = true := by
  simp only [is_transport_query, Bool.or_eq_true]
  refine Or.inr (Or.inl ?_)
  simp only [Bool.not_eq_true']
  exact Bool.eq_false_iff.mpr (fun ht => h (List.isEmpty_iff.mp ht))

/-- Strings with different first characters differ. -/
theorem string_head_ne {a b : String} {c d : Char}
    (ha : a.data.head? = some c) (hb : b.data.head? = some d)
    (hcd : c ≠ d) : a ≠ b := by
  intro h
  rw [h] at ha
  rw [ha] at hb
  exact hcd (by injection hb)

/-- The missing-bus abstain message starts with N. -/
theorem busMissingMessage_head (b : String) :
    (busMissingMessage b).data.head? = some 'N' := rfl

/-- The missing-route abstain message starts with N. -/
theorem routeMissingMessage_head (r : String) :
    (routeMissingMessage r).data.head? = some 'N' := rfl

/-- A guardrail-3 abstain answer is never the out-of-domain answer. -/
theorem validate_answer_ne_ood {buses routes : List (String × PyVal)}
    {q : String} {reason : String}
    (h : validate_referenced_entities buses routes q = some reason) :
    reason ≠ oodMessage := by
  unfold validate_referenced_entities at h
  cases hb : (entityMentions 'b' 'B' q).find? (fun b => !dictHasKey buses b) with
  | some b =>
      rw [hb] at h
      injection h with h
      rw [← h]
      exact string_head_ne (busMissingMessage_head b) rfl (by decide)
  | none =>
      rw [hb] at h
      cases hr : (entityMentions 'r' 'R' q).find?
          (fun r => !dictHasKey routes r) with
      | some r =>
          rw [hr] at h
          injection h with h
          rw [← h]
          exact string_head_ne (routeMissingMessage_head r) rfl (by decide)
      | none => rw [hr] at h; exact absurd h (by simp)

/-- The effective plan is never empty. -/
theorem effectivePlan_ne_nil (env : Env) (uq : String) :
    effectivePlan env uq ≠ [] := by
  unfold effectivePlan
  cases env.llmPlan with
  | none => exact fallback_plan_ne_nil uq
  | some p =>
      by_cases hp : p.isEmpty
      · simp only [hp, if_true]
        exact fallback_plan_ne_nil uq
      · simp only [hp, Bool.false_eq_true, if_false]
        simpa [List.isEmpty_iff] using hp

/-- The executed trace has one entry per plan step. -/
theorem execPlan_ok_length {env : Env} {query : String}
    {context : List String} :
    ∀ {steps : List PyVal} {st : ExecState} {tr : List PyVal},
      execPlan env query context st steps = .ok tr →
        tr.length = steps.length := by
  intro steps
  induction steps with
  | nil => intro st tr h; cases h; rfl
  | cons s rest ih =>
      intro st tr h
      unfold execPlan at h
      cases hrs : runStep env query context st s with
      | error e => rw [hrs] at h; exact absurd h (by simp [exceptBind_err])
      | ok p =>
          rw [hrs] at h
          simp only [exceptBind_ok] at h
          cases hrest : execPlan env query context p.1 rest with
          | error e => rw [hrest] at h; exact absurd h (by simp [exceptBind_err])
          | ok tl =>
              rw [hrest] at h
              simp only [exceptBind_ok] at h
              injection h with h
              rw [← h]
              simp [ih hrest]

/-- C1: in every execution of an eta plan step by the ask pipeline no
exception propagates out of the step (the step function returns ok for
every mapping step whose tool is "eta"), and the recorded step result is
the fixed 1200 s fallback carrying the explicit fallback marker both when
an exception is raised inside the step body and when, on an eta-cache miss,
the resolution guard of line 468 fails — the stop coordinates resolved by
none of the three lookup paths, or the bus id or the bus coordinates
unresolved. -/
theorem c1_eta_fallback (env : Env) (query : String) (context : List String)
    (st : ExecState) (skvs : List (String × PyVal))
    (htool : pyGet skvs "tool" = .str "eta") :
    (∃ p, runStep env query context st (.dict skvs) = .ok p) ∧
      (runEtaStep env query context st (stepParams skvs) = .error () →
        runStep env query context st (.dict skvs) =
          .ok (st, etaExceptionResult)) ∧
      (∀ sl sln bl bln,
        (∀ k v, etaKeyOf env (etaBusIdOf query (stepParams skvs))
            (etaStopIdOf (stepParams skvs)) = some k →
          redisFetch env st k ≠ .hit v) →
        resolveStopChain env context (etaBusIdOf query (stepParams skvs))
            (etaStopIdOf (stepParams skvs)) = .ok (sl, sln) →
        resolveBusPair env st (etaBusIdOf query (stepParams skvs)) =
          .ok (bl, bln) →
        (pyTruthy (etaBusIdOf query (stepParams skvs)) && !isNoneV bl &&
          !isNoneV bln && !isNoneV sl && !isNoneV sln) = false →
        runStep env query context st (.dict skvs) =
          .ok (st, etaFallbackResult (etaStopIdOf (stepParams skvs)))) := by
  refine ⟨?_, ?_, ?_⟩
  · rw [runStep_eta htool]
    exact ⟨_, rfl⟩
  · intro herr
    rw [runStep_eta htool, herr]
    rfl
  · intro sl sln bl bln hmiss hsp hbp hguard
    rw [runStep_eta htool, runEtaStep_miss hmiss,
      etaComputeFresh_guard_false hsp hbp hguard]
    rfl

/-- C1 witness: an eta step with no params in an empty environment — no
bus id, no resolvable coordinates — records exactly the 1200 s fallback
with the fallback marker and the default stop id, and the step returns
normally. -/
theorem c1_witness :
    runStep envEmpty "eta please" [] initExecState
        (.dict [("tool", .str "eta")]) =
      .ok (initExecState, etaFallbackResult (.str "S1")) :=
  (c1_eta_fallback envEmpty "eta please" [] initExecState
      [("tool", PyVal.str "eta")] rfl).2.2
    PyVal.none PyVal.none PyVal.none PyVal.none
    (fun _ _ h => Option.noConfusion h) rfl rfl rfl

/-- C4 counterexample: with the bus, its coordinates and the stop all
resolving, a distance of 0 km (under 100 m) and a prior weather step that
recorded a 60 second expected delay, the eta step records eta_sec = 180,
not the claimed 120: the weather delay is added after the imminent-arrival
branch as well. -/
theorem c4_counterexample :
    runStep envFleet "When will B1 reach S1?" [] stWeather60
        (.dict [("tool", .str "eta"),
          ("params", .dict [("bus_id", .str "B1"), ("stop_id", .str "S1")])]) =
      .ok (stWeather60,
        etaSuccessResult 0 (resolveSpeed stWeather60) 60 (.str "S1")
          (.int 22) (.int 88)) ∧
      etaStepWithDelay 0 (resolveSpeed stWeather60) 60 = 180 ∧
      (180 : ℤ) ≠ 120 := by
  refine ⟨rfl, ?_, by decide⟩
  · have hspeed : resolveSpeed stWeather60 = 25 := rfl
    rw [hspeed]
    unfold etaStepWithDelay etaStepSeconds
    rw [if_pos (by norm_num)]
    norm_num

/-- C4 (amended): in every execution of an eta plan step where the bus id,
bus coordinates and stop coordinates all resolve and the distance is under
100 m (0.1 km), the recorded eta_sec is 120 seconds plus the weather delay
of a prior weather step — regardless of the bus's speed — so exactly 120
only when that delay is 0. -/
theorem c4_eta_imminent_plus_delay (env : Env) (query : String)
    (context : List String) (st : ExecState) (skvs : List (String × PyVal))
    (sl sln bl bln : PyVal) (d : ℚ) (wd : ℤ)
    (htool : pyGet skvs "tool" = .str "eta")
    (hmiss : ∀ k v, etaKeyOf env (etaBusIdOf query (stepParams skvs))
        (etaStopIdOf (stepParams skvs)) = some k →
      redisFetch env st k ≠ .hit v)
    (hsp : resolveStopChain env context (etaBusIdOf query (stepParams skvs))
        (etaStopIdOf (stepParams skvs)) = .ok (sl, sln))
    (hbp : resolveBusPair env st (etaBusIdOf query (stepParams skvs)) =
      .ok (bl, bln))
    (hguard : (pyTruthy (etaBusIdOf query (stepParams skvs)) && !isNoneV bl &&
      !isNoneV bln && !isNoneV sl && !isNoneV sln) = true)
    (hhav : havValue env bl bln sl sln = .ok d)
    (hd : d < 1 / 10)
    (hwd : pyToInt (etaWeatherDelay st) = .ok wd) :
    runStep env query context st (.dict skvs) =
      .ok (etaPostState env st
          (etaKeyOf env (etaBusIdOf query (stepParams skvs))
            (etaStopIdOf (stepParams skvs)))
          (etaSuccessResult d (resolveSpeed st) wd
            (etaStopIdOf (stepParams skvs)) sl sln),
        etaSuccessResult d (resolveSpeed st) wd
          (etaStopIdOf (stepParams skvs)) sl sln) ∧
      (∀ speed, etaStepWithDelay d speed wd = 120 + wd) := by
  constructor
  · rw [runStep_eta htool, runEtaStep_miss hmiss,
      etaComputeFresh_success hsp hbp hguard hhav hwd]
    rfl
  · intro speed
    unfold etaStepWithDelay etaStepSeconds
    rw [if_pos hd]

/-- C4 witness: the amended statement at the concrete fleet, distance 0 and
weather delay 60: the step records eta_sec 120 + 60 independent of speed. -/
theorem c4_witness :
    runStep envFleet "When will B1 reach S1?" [] stWeather60
        (.dict [("tool", .str "eta"),
          ("params", .dict [("bus_id", .str "B1"), ("stop_id", .str "S1")])]) =
      .ok (stWeather60,
        etaSuccessResult 0 (resolveSpeed stWeather60) 60 (.str "S1")
          (.int 22) (.int 88)) ∧
      etaStepWithDelay 0 36 60 = 120 + 60 := by
  obtain ⟨h1, h2⟩ := c4_eta_imminent_plus_delay envFleet
    "When will B1 reach S1?" [] stWeather60
    [("tool", PyVal.str "eta"),
      ("params", PyVal.dict [("bus_id", PyVal.str "B1"),
        ("stop_id", PyVal.str "S1")])]
    (.int 22) (.int 88) (.int 22) (.int 88) 0 60
    rfl (fun _ _ h => Option.noConfusion h) rfl rfl rfl rfl (by norm_num) rfl
  exact ⟨h1, h2 36⟩

/-- C5: for every query that mentions a word-bounded bus-like identifier
(letter B followed by digits, case-insensitive) not present in the fleet
registry, ask abstains with the message naming the first such uppercased
identifier in sorted order — for a query with a single unknown identifier,
exactly that one — with empty trace and empty context.  The hypothesis is
the defining equation of the validator's scan; blankness and the domain
filter are implied by the mention itself, and the embedded validator is a
total function, so no exception can escape it. -/
theorem c5_entity_validation (env : Env) (uq : String) (b0 : String)
    (h : (entityMentions 'b' 'B' (pyStrip uq)).find?
        (fun b => !dictHasKey env.fleetBuses b) = some b0) :
    ask env uq = ⟨busMissingMessage b0, [], []⟩ ∧
      b0 ∈ entityMentions 'b' 'B' (pyStrip uq) ∧
      dictHasKey env.fleetBuses b0 = false := by
  have hmem : b0 ∈ entityMentions 'b' 'B' (pyStrip uq) :=
    List.mem_of_find?_eq_some h
  have hmiss : dictHasKey env.fleetBuses b0 = false := by
    have := List.find?_some h
    simpa using this
  have hne : entityMentions 'b' 'B' (pyStrip uq) ≠ [] :=
    List.ne_nil_of_mem hmem
  have hid : idMatches 'b' 'B' (pyStrip uq) ≠ [] :=
    fun hm => hne (entityMentions_eq_nil _ _ _ hm)
  have hq : pyStrip uq ≠ "" := fun hqe => hid (by rw [hqe]; rfl)
  have hqb : (pyStrip uq == "") = false := by
    simp only [beq_eq_false_iff_ne, ne_eq]
    exact hq
  have htrans : is_transport_query (pyStrip uq) = true :=
    is_transport_of_busid hid
  have hval : validate_referenced_entities env.fleetBuses env.fleetRoutes
      (pyStrip uq) = some (busMissingMessage b0) := by
    unfold validate_referenced_entities
    rw [h]
  refine ⟨?_, hmem, hmiss⟩
  simp only [ask, hqb, htrans, hval, Bool.not_true, Bool.false_eq_true,
    if_false]

/-- C5 witness: asking about the unknown bus B999 in an empty registry
abstains naming B999 with empty trace and context. -/
theorem c5_witness :
    (entityMentions 'b' 'B' (pyStrip "Where is B999?")).find?
        (fun b => !dictHasKey envEmpty.fleetBuses b) = some "B999" ∧
      ask envEmpty "Where is B999?" = ⟨busMissingMessage "B999", [], []⟩ :=
  ⟨by decide,
    (c5_entity_validation envEmpty "Where is B999?" "B999" (by decide)).1⟩

/-- C6 (amended): with the source's actual keyword list — which also
contains "buses" and "station" — and word-bounded B/R/S identifiers, a
non-blank query receives the out-of-domain abstain answer with empty trace
and empty context exactly when the domain filter rejects it; every query
the filter accepts takes a different path (an entity or relevance abstain,
whose message differs, or execution, whose trace is non-empty, or the
apology answer). -/
theorem c6_domain_filter (env : Env) (uq : String) (hq : pyStrip uq ≠ "") :
    (ask env uq = ⟨oodMessage, [], []⟩ ↔
      is_transport_query (pyStrip uq) = false) := by
  have hqb : (pyStrip uq == "") = false := by
    simp only [beq_eq_false_iff_ne, ne_eq]
    exact hq
  constructor
  · intro hood
    by_contra hns
    rw [Bool.not_eq_false] at hns
    revert hood
    simp only [ask, hqb, hns, Bool.not_true, Bool.false_eq_true, if_false]
    cases hval : validate_referenced_entities env.fleetBuses env.fleetRoutes
        (pyStrip uq) with
    | some reason =>
        simp only []
        intro hood
        exact validate_answer_ne_ood hval
          (congrArg AskResult.answer hood)
    | none =>
        simp only []
        by_cases hrel : relevanceTrip env (pyStrip uq) = true
        · simp only [hrel, if_true]
          intro hood
          exact absurd (congrArg AskResult.answer hood) (by decide)
        · rw [Bool.not_eq_true] at hrel
          simp only [hrel, Bool.false_eq_true, if_false]
          cases hex : execPlan env uq (ragContext env (pyStrip uq))
              initExecState (effectivePlan env uq) with
          | error e =>
              simp only []
              intro hood
              exact absurd (congrArg AskResult.answer hood) (by decide)
          | ok trace =>
              simp only []
              have htr : trace ≠ [] := by
                intro hnil
                apply effectivePlan_ne_nil env uq
                have := execPlan_ok_length hex
                rw [hnil] at this
                exact (List.length_eq_zero.mp this.symm)
              cases hans : askAnswer env trace with
              | error e =>
                  simp only [hans, askFinal]
                  intro hood
                  exact absurd (congrArg AskResult.answer hood) (by decide)
              | ok a =>
                  simp only [hans, askFinal]
                  intro hood
                  exact htr (congrArg AskResult.toolResults hood)
  · intro hns
    simp only [ask, hqb, hns, Bool.not_false, Bool.false_eq_true, if_false,
      if_true]

/-- C6 witness: the out-of-domain query "hello there" is answered with the
out-of-domain message and empty trace and context. -/
theorem c6_witness :
    ask envEmpty "hello there" = ⟨oodMessage, [], []⟩ ∧
      pyStrip "hello there" ≠ "" ∧
      is_transport_query (pyStrip "hello there") = false :=
  ⟨(c6_domain_filter envEmpty "hello there" (by decide)).mpr (by decide),
    by decide, by decide⟩

/-- C7: the deterministic fallback planner returns a non-empty plan (a
single none step when no keyword rule fires), and for every query with one
of the eta trigger keywords the plan's first two steps are the weather step
with empty params followed by the eta step whose params are the extracted
bus id (the Python-None value when no identifier matches, the source's
representation of an absent id) and the default stop "S1". -/
theorem c7_fallback_planner (query : String) :
    fallback_plan query ≠ [] ∧
      (etaTriggerWords.any (fun k => containsSub (pyLower query) k) = true →
        (fallback_plan query).take 2 =
          [weatherStepEmpty, etaStepPlan (busIdFromQuery query)]) ∧
      ((etaTriggerWords.any (fun k => containsSub (pyLower query) k) = false ∧
        weatherTriggerWords.any (fun k => containsSub (pyLower query) k) = false ∧
        (containsSub (pyLower query) "where" ||
          containsSub (pyLower query) "location" ||
          containsSub (pyLower query) "status" ||
          ((idMatches 'b' 'B' query).head?).isSome) = false) →
        fallback_plan query = [noneStepPlan]) := by
  refine ⟨fallback_plan_ne_nil query, ?_, ?_⟩
  · intro h
    simp [fallback_plan, fallback_plan_rules, h]
  · rintro ⟨h1, h2, h3⟩
    simp [fallback_plan, fallback_plan_rules, h1, h2, h3]

/-- C7 witness: the planner applied to "when will b2 arrive". -/
theorem c7_witness :
    fallback_plan "when will b2 arrive" ≠ [] ∧
      (fallback_plan "when will b2 arrive").take 2 =
        [weatherStepEmpty, etaStepPlan (busIdFromQuery "when will b2 arrive")] :=
  ⟨(c7_fallback_planner "when will b2 arrive").1,
    (c7_fallback_planner "when will b2 arrive").2.1 (by decide)⟩

/-- C2 counterexample: a subscription with every id present and threshold
300 whose pipeline trace carries a numeric eta_sec of 0 — within the
claimed window 0 ≤ eta ≤ 300 — triggers no delivery, because the falsy-
tolerant extraction (eta_res.get eta_sec or eta_res.get eta) treats the 0
as absent and the cycle skips the subscription. -/
theorem c2_counterexample :
    processOneSub subU1 (traceEta 0) = Option.none ∧
      pyGet [("eta_sec", PyVal.int 0)] "eta_sec" = .int 0 ∧
      notifyThreshold (.int 300) = 300 ∧ (0 : ℤ) ≤ 0 ∧ (0 : ℤ) ≤ 300 :=
  ⟨rfl, rfl, rfl, le_refl 0, by norm_num⟩

/-- C2 (amended): for a dict subscription with user, bus and stop ids
present, exactly one notification is delivered in a cycle iff the first
eta entry of the trace yields — through the falsy-tolerant eta_sec/eta
chain — a value that converts to an integer e with 0 ≤ e ≤ threshold,
where the threshold is the stored notify_before_sec, defaulting to 300
when missing or unparseable.  In particular eta 250 with threshold 300
delivers and eta 400 does not; an eta_sec of 0 with no separate eta key
never delivers (the extraction yields None). -/
theorem c2_notifier_threshold (skvs : List (String × PyVal))
    (trace : List PyVal)
    (hu : pyTruthy (pyGet skvs "user_id") = true)
    (hb : pyTruthy (pyGet skvs "bus_id") = true)
    (hs : pyTruthy (pyGet skvs "stop_id") = true) :
    (processOneSub (.dict skvs) trace).isSome = true ↔
      (∃ rkvs e, firstEtaResult trace = .ok (some rkvs) ∧
        isNoneV (pyOr (pyGet rkvs "eta_sec") (pyGet rkvs "eta")) = false ∧
        pyToInt (pyOr (pyGet rkvs "eta_sec") (pyGet rkvs "eta")) = .ok e ∧
        0 ≤ e ∧ e ≤ notifyThreshold (pyGet skvs "notify_before_sec")) := by
  unfold processOneSub
  simp only [hu, hb, hs, Bool.not_true, Bool.false_or, Bool.or_self,
    Bool.or_false, if_false]
  cases hfe : firstEtaResult trace with
  | error e => simp [hfe]
  | ok o =>
      cases o with
      | none => simp [hfe]
      | some rkvs =>
          by_cases hv : isNoneV (pyOr (pyGet rkvs "eta_sec") (pyGet rkvs "eta")) = true
          · simp [hfe, hv]
          · rw [Bool.not_eq_true] at hv
            cases hti : pyToInt (pyOr (pyGet rkvs "eta_sec") (pyGet rkvs "eta")) with
            | error u => simp [hfe, hv, hti]
            | ok e =>
                by_cases hrange :
                    0 ≤ e ∧ e ≤ notifyThreshold (pyGet skvs "notify_before_sec")
                · simp only [hv, Bool.false_eq_true, if_false, hti]
                  rw [if_pos hrange]
                  simp only [Option.isSome_some, true_iff]
                  exact ⟨rkvs, e, rfl, hv, hti, hrange.1, hrange.2⟩
                · simp only [hv, Bool.false_eq_true, if_false, hti]
                  rw [if_neg hrange]
                  simp only [Option.isSome_none, Bool.false_eq_true, false_iff]
                  rintro ⟨rkvs', e', h1, _h2, h3, h4, h5⟩
                  injection h1 with h1
                  injection h1 with h1
                  subst h1
                  rw [hti] at h3
                  injection h3 with h3
                  subst h3
                  exact hrange ⟨h4, h5⟩

/-- C2 witness: the subscription with threshold 300 and a trace eta of 250
delivers exactly one notification. -/
theorem c2_witness : (processOneSub (.dict subU1Kvs) (traceEta 250)).isSome = true :=
  (c2_notifier_threshold subU1Kvs (traceEta 250) (by decide) (by decide)
      (by decide)).mpr
    ⟨[("eta_sec", .int 250)], 250, rfl, rfl, rfl, by decide, by decide⟩

/-- C6 counterexample: the query "station" contains none of the claim's
eleven keywords and no B/R/S identifier, so the claim requires the
out-of-domain abstain; but the source's keyword list also contains
"station", the filter passes the query, and ask proceeds to answer with
the composer's no-information sentence instead of the out-of-domain
result. -/
theorem c6_counterexample :
    is_transport_query "station" = true ∧
      claimDomainKeywords.all (fun k => !containsSub (pyLower "station") k) = true ∧
      idMatches 'b' 'B' "station" = [] ∧
      idMatches 'r' 'R' "station" = [] ∧
      idMatches 's' 'S' "station" = [] ∧
      ask envEmpty "station" ≠ ⟨oodMessage, [], []⟩ := by
  refine ⟨by decide, by decide, by decide, by decide, by decide, ?_⟩
  have h : ask envEmpty "station" =
      ⟨noInfoMessage,
        [.dict [("step", noneStepPlan), ("result", .dict [("info", .str "no-op")])]],
        []⟩ := rfl
  rw [h]
  intro hc
  exact absurd (congrArg AskResult.toolResults hc) (by simp)

/-- Python or of two dicts is again a dict. -/
theorem pyOr_dict (kv d : List (String × PyVal)) :
    ∃ m, pyOr (PyVal.dict kv) (PyVal.dict d) = PyVal.dict m := by
  unfold pyOr
  split
  · exact ⟨kv, rfl⟩
  · exact ⟨d, rfl⟩

/-- A dict step never escapes the per-step handler of the tool loop. -/
theorem runStep_dict_ok (env : Env) (query : String) (context : List String)
    (st : ExecState) (skvs : List (String × PyVal)) :
    ∃ p, runStep env query context st (PyVal.dict skvs) = .ok p :=
  ⟨_, rfl⟩

/-- The tool loop over ok-producing steps returns one trace entry per step,
in order, each a step/result dict wrapping the corresponding plan step. -/
theorem execPlan_shape (env : Env) (query : String) (context : List String) :
    ∀ (steps : List PyVal) (st : ExecState),
      (∀ s ∈ steps, ∀ st2 : ExecState,
        ∃ p, runStep env query context st2 s = .ok p) →
      ∃ tr, execPlan env query context st steps = .ok tr ∧
        tr.length = steps.length ∧
        (∀ (i : ℕ) (s2 : PyVal), steps[i]? = some s2 → ∃ r,
          tr[i]? = some (PyVal.dict [("step", s2), ("result", r)])) ∧
        (∀ t ∈ tr, ∃ s r, s ∈ steps ∧
          t = PyVal.dict [("step", s), ("result", r)]) := by
  intro steps
  induction steps with
  | nil =>
      intro st h
      refine ⟨[], rfl, rfl, ?_, ?_⟩
      · intro i s2 hs2
        simp at hs2
      · intro t htm
        exact absurd htm (List.not_mem_nil t)
  | cons s rest ih =>
      intro st hall
      obtain ⟨p, hp⟩ := hall s (List.mem_cons_self _ _) st
      obtain ⟨tr, htr, hlen, hidx, hmem⟩ :=
        ih p.1 (fun x hx st2 => hall x (List.mem_cons_of_mem _ hx) st2)
      refine ⟨PyVal.dict [("step", s), ("result", p.2)] :: tr, ?_, ?_, ?_, ?_⟩
      · simp only [execPlan, hp, exceptBind_ok, htr]
      · simp only [List.length_cons, hlen]
      · intro i s2 hs2
        cases i with
        | zero =>
            rw [List.getElem?_cons_zero] at hs2
            injection hs2 with hs2
            subst hs2
            refine ⟨p.2, ?_⟩
            rw [List.getElem?_cons_zero]
        | succ n =>
            rw [List.getElem?_cons_succ] at hs2
            obtain ⟨r, hr⟩ := hidx n s2 hs2
            refine ⟨r, ?_⟩
            rw [List.getElem?_cons_succ]
            exact hr
      · intro t htm
        rcases List.mem_cons.mp htm with h | h
        · exact ⟨s, p.2, List.mem_cons_self _ _, h⟩
        · obtain ⟨s2, r, hs2, ht2⟩ := hmem t h
          exact ⟨s2, r, List.mem_cons_of_mem _ hs2, ht2⟩

/-- On a trace of well-formed step/result dict entries, the first-eta scan
never raises. -/
theorem firstEtaResult_wf :
    ∀ (tr : List PyVal),
      (∀ t ∈ tr, ∃ skv r,
        t = PyVal.dict [("step", PyVal.dict skv), ("result", r)]) →
      ∃ o, firstEtaResult tr = .ok o := by
  intro tr
  induction tr with
  | nil =>
      intro _
      exact ⟨Option.none, rfl⟩
  | cons t rest ih =>
      intro hall
      obtain ⟨orest, hrest⟩ := ih (fun s hs => hall s (List.mem_cons_of_mem _ hs))
      obtain ⟨skv, r, htv⟩ := hall t (List.mem_cons_self _ _)
      subst htv
      have hstep : pyGet [("step", PyVal.dict skv), ("result", r)] "step" =
        PyVal.dict skv := rfl
      have hres : pyGet [("step", PyVal.dict skv), ("result", r)] "result" =
        r := rfl
      obtain ⟨m, hm⟩ := pyOr_dict skv []
      simp only [firstEtaResult, hstep, hres, hm]
      by_cases he : pyEq (pyGet m "tool") (PyVal.str "eta") = true
      · simp only [he, if_true]
        cases r with
        | dict rkvs => exact ⟨some rkvs, rfl⟩
        | none => exact ⟨orest, hrest⟩
        | bool b => exact ⟨orest, hrest⟩
        | int n => exact ⟨orest, hrest⟩
        | float q => exact ⟨orest, hrest⟩
        | str s => exact ⟨orest, hrest⟩
        | list l => exact ⟨orest, hrest⟩
      · rw [Bool.not_eq_true] at he
        simp only [he, Bool.false_eq_true, if_false]
        exact ⟨orest, hrest⟩

/-- The deterministic composer never raises once the first-eta scan is ok. -/
theorem composeFallbackAnswer_wf {tr : List PyVal}
    {o : Option (List (String × PyVal))}
    (h : firstEtaResult tr = .ok o) :
    ∃ a, composeFallbackAnswer tr = .ok a := by
  simp only [composeFallbackAnswer, h, exceptBind_ok]
  cases o with
  | none => exact ⟨noInfoMessage, rfl⟩
  | some rkvs =>
      by_cases hn : isNoneV (pyOr (pyGet rkvs "eta_sec")
          (pyGet rkvs "eta")) = true
      · simp only [hn, if_true]
        exact ⟨noInfoMessage, rfl⟩
      · rw [Bool.not_eq_true] at hn
        simp only [hn, Bool.false_eq_true, if_false]
        cases hti : pyToInt (pyOr (pyGet rkvs "eta_sec") (pyGet rkvs "eta")) with
        | error u => exact ⟨noInfoMessage, rfl⟩
        | ok e => exact ⟨_, rfl⟩

/-- The composition stage of ask never raises on well-formed trace entries. -/
theorem askAnswer_wf (env : Env) {tr : List PyVal}
    (h : ∀ t ∈ tr, ∃ skv r,
      t = PyVal.dict [("step", PyVal.dict skv), ("result", r)]) :
    ∃ a, askAnswer env tr = .ok a := by
  obtain ⟨o, ho⟩ := firstEtaResult_wf tr h
  obtain ⟨a, ha⟩ := composeFallbackAnswer_wf ho
  unfold askAnswer
  cases hle : env.llmAnswer with
  | none => exact ⟨a, ha⟩
  | some t =>
      show ∃ b, (if pyStrip t ≠ "" then Except.ok (pyStrip t)
        else composeFallbackAnswer tr) = .ok b
      by_cases htn : pyStrip t ≠ ""
      · rw [if_pos htn]
        exact ⟨pyStrip t, rfl⟩
      · rw [if_neg htn]
        exact ⟨a, ha⟩

/-- C9: for every plan all of whose steps are mappings — cached results,
failing tools and internal raises included, since the per-step handler
catches them all — once ask reaches execution (non-blank query, domain
filter passed, entity validation passed, relevance guardrail not tripped),
the returned tool-result trace has exactly one entry per plan step, in plan
order, and the i-th entry is a step/result dict whose step is the i-th plan
step. -/
theorem c9_trace_shape (env : Env) (uq : String)
    (hq : pyStrip uq ≠ "")
    (ht : is_transport_query (pyStrip uq) = true)
    (hv : validate_referenced_entities env.fleetBuses env.fleetRoutes
      (pyStrip uq) = Option.none)
    (hr : relevanceTrip env (pyStrip uq) = false)
    (hdict : ∀ s ∈ effectivePlan env uq, ∃ kv, s = PyVal.dict kv) :
    (ask env uq).toolResults.length = (effectivePlan env uq).length ∧
      ∀ (i : ℕ) (s : PyVal), (effectivePlan env uq)[i]? = some s → ∃ r,
        (ask env uq).toolResults[i]? = some (PyVal.dict
          [("step", s), ("result", r)]) := by
  have hqb : (pyStrip uq == "") = false := by
    simp only [beq_eq_false_iff_ne, ne_eq]
    exact hq
  obtain ⟨tr, htr, hlen, hidx, hmem⟩ := execPlan_shape env uq
    (ragContext env (pyStrip uq)) (effectivePlan env uq) initExecState
    (fun s hs st2 => by
      obtain ⟨kv, hkv⟩ := hdict s hs
      subst hkv
      exact runStep_dict_ok env uq (ragContext env (pyStrip uq)) st2 kv)
  have hwf : ∀ t ∈ tr, ∃ skv r,
      t = PyVal.dict [("step", PyVal.dict skv), ("result", r)] := by
    intro t htm
    obtain ⟨s, r, hs, htt⟩ := hmem t htm
    obtain ⟨kv, hkv⟩ := hdict s hs
    exact ⟨kv, r, by rw [htt, hkv]⟩
  obtain ⟨a, ha⟩ := askAnswer_wf env hwf
  have hask : ask env uq = ⟨a, tr, ragContext env (pyStrip uq)⟩ := by
    simp only [ask, hqb, ht, hv, hr, Bool.not_true, Bool.false_eq_true,
      if_false, htr, ha, askFinal]
  rw [hask]
  exact ⟨hlen, hidx⟩

/-- C9 witness: the trace-shape property at the empty environment and the
query "when will the bus arrive", whose fallback plan is the weather step
followed by the eta step: the trace has two entries and its first entry
wraps the weather step. -/
theorem c9_witness :
    (ask envEmpty "when will the bus arrive").toolResults.length =
      (effectivePlan envEmpty "when will the bus arrive").length ∧
      ∃ r, (ask envEmpty "when will the bus arrive").toolResults[0]? =
        some (PyVal.dict [("step", weatherStepEmpty), ("result", r)]) := by
  obtain ⟨h1, h2⟩ := c9_trace_shape envEmpty "when will the bus arrive"
    (by decide) (by decide) (by decide) (by decide)
    (by
      intro s hs
      have hp : effectivePlan envEmpty "when will the bus arrive" =
          [weatherStepEmpty, etaStepPlan PyVal.none] := rfl
      rw [hp] at hs
      simp only [List.mem_cons, List.not_mem_nil, or_false] at hs
      rcases hs with h | h
      · exact ⟨_, h⟩
      · exact ⟨_, h⟩)
  obtain ⟨r, hr⟩ := h2 0 weatherStepEmpty rfl
  exact ⟨h1, r, hr⟩

/-- A string whose first character exists is not empty. -/
theorem string_ne_empty_of_head {s : String} {c : Char}
    (h : s.data.head? = some c) : s ≠ "" := by
  intro he
  rw [he] at h
  simp at h

/-- Appending on the right keeps the first character. -/
theorem string_append_head {a b : String} {c : Char}
    (h : a.data.head? = some c) : (a ++ b).data.head? = some c := by
  rw [String.data_append]
  cases hd : a.data with
  | nil =>
      rw [hd] at h
      simp at h
  | cons x xs =>
      rw [hd] at h
      simpa using h

/-- The alternate-bus suggestion starts with a space. -/
theorem altBusText_head (altId : String) (routeIdV stopIdV : PyVal) :
    (altBusText altId routeIdV stopIdV).data.head? = some ' ' := by
  unfold altBusText
  exact string_append_head (string_append_head (string_append_head
    (string_append_head (string_append_head (string_append_head rfl)))))

/-- The generic faster-mode suggestion starts with a space. -/
theorem genericAltText_head (stopIdV : PyVal) :
    (genericAltText stopIdV).data.head? = some ' ' := by
  unfold genericAltText
  exact string_append_head (string_append_head (string_append_head
    (string_append_head rfl)))

/-- The long-ETA enrichment suffix is never the empty string. -/
theorem supAltSuffix_ne_empty (buses : List (String × PyVal))
    (busIdV mainRoute stopIdV : PyVal) :
    supAltSuffix buses busIdV mainRoute stopIdV ≠ "" := by
  unfold supAltSuffix
  split
  · exact string_ne_empty_of_head (altBusText_head _ _ _)
  · exact string_ne_empty_of_head (genericAltText_head _)

/-- Appending something nonempty yields something nonempty. -/
theorem string_append_ne_empty {a b : String} (h : b ≠ "") : a ++ b ≠ "" := by
  intro he
  apply h
  have hd := congrArg String.data he
  rw [String.data_append] at hd
  exact String.ext (List.append_eq_nil.mp hd).2

/-- The merged answer always keeps the eta sentence as its head: the base
answer is appended after it or dropped, never prepended. -/
theorem supFriendly1_keeps_sentence (friendly0 : Option String)
    (etaSentence : String) :
    etaSentence.data <+: (supFriendly1 friendly0 etaSentence).data := by
  unfold supFriendly1
  cases friendly0 with
  | none => exact ⟨[], List.append_nil _⟩
  | some f =>
      cases hs : charsPrefix "sorry".data (pyLower f).data with
      | true =>
          simp only [hs, if_true]
          exact ⟨[], List.append_nil _⟩
      | false =>
          simp only [hs, Bool.false_eq_true, if_false]
          refine ⟨" ".data ++ f.data, ?_⟩
          rw [String.data_append, String.data_append, List.append_assoc]

/-- The supervisor's eta block on a long eta: the merged sentence with the
enrichment suffix appended, the fleet lookup abstracted by its result. -/
theorem supEtaBlock_long {buses : List (String × PyVal)}
    {friendly0 : Option String} {etaTr : PyVal} {gpsE : Option PyVal}
    {e : ℤ} {mainStatus : PyVal}
    (heta : supEtaInt? etaTr = some e)
    (h1800 : 1800 ≤ e)
    (hstat : supMainStatusE buses (supBusIdV etaTr gpsE) = .ok mainStatus) :
    supEtaBlock buses friendly0 etaTr gpsE =
      .ok (some (supFriendly1 friendly0 (supEtaSentence etaTr gpsE e) ++
        supAltSuffix buses (supBusIdV etaTr gpsE) (supMainRoute mainStatus)
          (supStopIdV etaTr))) := by
  have h3060 : e ≥ 30 * 60 := le_trans (by norm_num) h1800
  simp only [supEtaBlock, heta]
  rw [if_pos h3060, hstat]
  simp only [exceptBind_ok]

/-- C8 counterexample: a trace that contains an eta entry of 2000 seconds
(over the 1800 s enrichment threshold) followed by a second eta entry of
100 seconds.  The supervisor keys the enrichment to the last eta entry, so
the composed answer carries the 1 minute sentence for stop S2 and no
suggestion at all — neither the alternate-bus sentence (although B2 shares
the route of B1 in the fleet registry) nor the generic faster-mode one —
refuting the claim for this trace. -/
theorem c8_counterexample :
    c8Trace.head? = some c8EtaFar ∧
      supEtaInt? c8EtaFar = some 2000 ∧ (1800 : ℤ) ≤ 2000 ∧
      firstAltBus envFleet.fleetBuses (.str "B1") (.str "R1") = some "B2" ∧
      handle_user_query_answer envFleet.fleetBuses c8Result =
        some "Bus B1 is expected to reach stop S2 in about 1 minute. All good" ∧
      containsSub
        "Bus B1 is expected to reach stop S2 in about 1 minute. All good"
        "alternative" = false ∧
      containsSub
        "Bus B1 is expected to reach stop S2 in about 1 minute. All good"
        "faster" = false :=
  ⟨rfl, rfl, by decide, rfl, rfl, by decide, by decide⟩

/-- C8 (amended): the enrichment is keyed to the last eta entry of the
trace that carries an eta_sec or eta key (not to any eta entry).  Whenever
the planner result is truthy, carries no error key, its scan selects a
last eta entry whose eta converts to an integer e with e at least 1800,
and the fleet lookup of the primary bus returns, the supervisor's answer is
the whitespace-collapse of the merged sentence followed by the enrichment
suffix; the merged sentence always keeps the primary eta sentence as its
head (the base answer is appended after it or dropped, never prepended),
and the suffix names the first other bus of the primary route when the
route is known and such a bus exists, else it is the generic faster-mode
suggestion. -/
theorem c8_long_eta_enrichment (buses : List (String × PyVal))
    (rkvs : List (String × PyVal)) (etaTr : PyVal) (gpsE : Option PyVal)
    (e : ℤ) (mainStatus : PyVal)
    (hres : pyTruthy (PyVal.dict rkvs) = true)
    (herr : dictHasKey rkvs "error" = false)
    (hscan : supScanEntries (supToolResults rkvs) (Option.none, Option.none) =
      .ok (some etaTr, gpsE))
    (heta : supEtaInt? etaTr = some e)
    (h1800 : 1800 ≤ e)
    (hstat : supMainStatusE buses (supBusIdV etaTr gpsE) = .ok mainStatus) :
    handle_user_query_answer buses (PyVal.dict rkvs) =
      some (collapseWs (supFriendly1 (supFriendly0 rkvs)
          (supEtaSentence etaTr gpsE e) ++
        supAltSuffix buses (supBusIdV etaTr gpsE) (supMainRoute mainStatus)
          (supStopIdV etaTr))) ∧
      (supEtaSentence etaTr gpsE e).data <+:
        (supFriendly1 (supFriendly0 rkvs)
          (supEtaSentence etaTr gpsE e)).data ∧
      (∀ altId, pyTruthy (supMainRoute mainStatus) = true →
        firstAltBus buses (supBusIdV etaTr gpsE) (supMainRoute mainStatus) =
          some altId →
        supAltSuffix buses (supBusIdV etaTr gpsE) (supMainRoute mainStatus)
            (supStopIdV etaTr) =
          altBusText altId (supMainRoute mainStatus) (supStopIdV etaTr)) := by
  have hne : supFriendly1 (supFriendly0 rkvs) (supEtaSentence etaTr gpsE e) ++
      supAltSuffix buses (supBusIdV etaTr gpsE) (supMainRoute mainStatus)
        (supStopIdV etaTr) ≠ "" :=
    string_append_ne_empty (supAltSuffix_ne_empty _ _ _ _)
  have hbeq : ((supFriendly1 (supFriendly0 rkvs)
      (supEtaSentence etaTr gpsE e) ++
      supAltSuffix buses (supBusIdV etaTr gpsE) (supMainRoute mainStatus)
        (supStopIdV etaTr)) == "") = false :=
    beq_eq_false_iff_ne.mpr hne
  have hcomp : supervisorCompose buses rkvs =
      .ok (collapseWs (supFriendly1 (supFriendly0 rkvs)
        (supEtaSentence etaTr gpsE e) ++
        supAltSuffix buses (supBusIdV etaTr gpsE) (supMainRoute mainStatus)
          (supStopIdV etaTr))) := by
    simp only [supervisorCompose]
    rw [hscan]
    simp only [exceptBind_ok]
    rw [supEtaBlock_long heta h1800 hstat]
    simp only [exceptBind_ok, hbeq, Bool.false_eq_true, if_false]
  refine ⟨?_, supFriendly1_keeps_sentence _ _, ?_⟩
  · simp only [handle_user_query_answer, hres, Bool.not_true,
      Bool.false_eq_true, if_false, herr, hcomp]
  · intro altId htmr hfab
    simp only [supAltSuffix, htmr, if_true, hfab]

/-- C8 witness: the amended statement at the concrete fleet (B1 and B2 on
route R1) and a planner result whose single eta entry is 2000 seconds from
stop S1: the answer appends the enrichment and the suffix names B2. -/
theorem c8_witness :
    handle_user_query_answer envFleet.fleetBuses (PyVal.dict c8GoodKvs) =
      some (collapseWs (supFriendly1 (supFriendly0 c8GoodKvs)
          (supEtaSentence c8EtaFar Option.none 2000) ++
        supAltSuffix envFleet.fleetBuses (supBusIdV c8EtaFar Option.none)
          (supMainRoute c8MainStatus) (supStopIdV c8EtaFar))) ∧
      (supEtaSentence c8EtaFar Option.none 2000).data <+:
        (supFriendly1 (supFriendly0 c8GoodKvs)
          (supEtaSentence c8EtaFar Option.none 2000)).data ∧
      supAltSuffix envFleet.fleetBuses (supBusIdV c8EtaFar Option.none)
          (supMainRoute c8MainStatus) (supStopIdV c8EtaFar) =
        altBusText "B2" (PyVal.str "R1") (PyVal.str "S1") := by
  obtain ⟨h1, h2, h3⟩ := c8_long_eta_enrichment envFleet.fleetBuses c8GoodKvs
    c8EtaFar Option.none 2000 c8MainStatus rfl rfl rfl rfl (by decide) rfl
  refine ⟨h1, h2, ?_⟩
  have h4 := h3 "B2" rfl rfl
  rw [h4]
  rfl

end Transport
